import Mathlib

/-!
# Verification of the Ayoto plugin loading and dispatch runtime

Shallow embedding of the plugin runtime of the Ayoto repository:

* `src/src/plugin/manifest.rs` — `SemVer`, `PluginManifest`, validation;
* `src/src/plugin/loader.rs` — the JSON (`.ayoto`) plugin loader and registry;
* `src/src/plugin/zpe/{types,loader,runtime}.rs` — the WASM (`.zpe`) backend:
  manifest, loader, registry, dispatch, and the cross-boundary call protocol;
* `src/src/plugin/native/{ffi_types,plugin_trait,native_loader}.rs` — the
  native dynamic-library backend.

Rust machine integers are modelled as `Nat` with explicit `% 2 ^ w` where
overflow matters.  File-system, ZIP and dynamic-linker effects are modelled as
explicit outcome fields of the load inputs (each field is documented with the
source step it stands for).  Registries (`HashMap<String, _>` behind a lock)
are modelled as association lists; locks are modelled by explicit
`lockFails` flags on the operations that can observe a poisoned lock.
The host version `env!("CARGO_PKG_VERSION")` is not part of the snapshot, so
every function that reads it takes an explicit `hostVersion` argument.
-/

namespace Ayoto

/-! ## Rust string primitives

`str::find('-')`, `str::split('.')` and `u32::from_str` as used by
`SemVer::parse` (src/src/plugin/manifest.rs lines 20-38) and by the two local
`parse_version` closures (zpe/loader.rs lines 778-788, native/native_loader.rs
lines 649-659). -/

/-- Rust `char::is_ascii_digit`-style digit list to value (the value a run of
decimal digits denotes). -/
def digitsToNat (cs : List Char) : Nat :=
  cs.foldl (fun a c => a * 10 + (c.toNat - 48)) 0

/-- Rust `u32::from_str` on a character list: an optional leading `+`, then at
least one decimal digit, value at most `u32::MAX`; anything else is `Err`. -/
def rustParseU32L (cs : List Char) : Option Nat :=
  let body := match cs with
    | '+' :: rest => rest
    | other => other
  if body = [] then none
  else if body.all (fun c => c.isDigit) then
    let v := digitsToNat body
    if v < 4294967296 then some v else none
  else none

/-- Rust `u32::from_str` on a string (`parts[i].parse()` in `SemVer::parse`). -/
def rustParseU32 (s : String) : Option Nat :=
  rustParseU32L s.data

/-- Rust `version.find('-')` splitting: the text before the first `-` and,
when a `-` occurs, the text after it (manifest.rs lines 21-25). -/
def splitAtFirstDash : List Char → List Char × Option (List Char)
  | [] => ([], none)
  | c :: rest =>
    if c = '-' then ([], some rest)
    else
      let r := splitAtFirstDash rest
      (c :: r.1, r.2)

/-- Rust `str::split(sep)` on a character list: always at least one part, the
empty string yields one empty part. -/
def splitOnSep (sep : Char) : List Char → List (List Char)
  | [] => [[]]
  | c :: rest =>
    let r := splitOnSep sep rest
    if c = sep then [] :: r
    else
      match r with
      | h :: t => (c :: h) :: t
      | [] => [[c]]

/-- `splitOnSep` never returns the empty list (Rust split yields ≥ 1 part). -/
theorem splitOnSep_ne_nil (sep : Char) (cs : List Char) : splitOnSep sep cs ≠ [] := by
  induction cs with
  | nil => simp [splitOnSep]
  | cons c rest ih =>
    simp only [splitOnSep]
    split
    · simp
    · cases h : splitOnSep sep rest with
      | nil => exact absurd h ih
      | cons a t => simp

/-! ## SemVer (src/src/plugin/manifest.rs lines 9-79) -/

/-- Semantic version `{major, minor, patch, prerelease}`; the numeric fields
are `u32` in the source, parsing enforces `< 2^32`. -/
structure SemVer where
  major : Nat
  minor : Nat
  patch : Nat
  prerelease : Option String
  deriving DecidableEq, Repr

/-- The `major.minor.patch` core of a version string: the part before the
first `-` (manifest.rs line 21-25). -/
def versionCore (s : String) : String :=
  String.mk (splitAtFirstDash s.data).1

/-- The prerelease suffix after the first `-`, when present. -/
def versionPrerelease (s : String) : Option String :=
  ((splitAtFirstDash s.data).2).map (fun cs => String.mk cs)

/-- The `.`-separated components of the version core
(`version_part.split('.').collect()` in manifest.rs line 27). -/
def versionParts (s : String) : List String :=
  (splitOnSep '.' (splitAtFirstDash s.data).1).map (fun cs => String.mk cs)

/-- `SemVer::parse` (manifest.rs lines 20-38): split off a `-`-introduced
prerelease tag, require exactly three `.`-separated components, parse each as
`u32`.  The source checks `parts.len() != 3` before indexing; matching on the
three-element shape is the same test. -/
def SemVer.parse (version : String) : Except String SemVer :=
  match versionParts version with
  | [a, b, c] =>
    match rustParseU32 a with
    | none => .error ("Invalid major version: " ++ a)
    | some major =>
      match rustParseU32 b with
      | none => .error ("Invalid minor version: " ++ b)
      | some minor =>
        match rustParseU32 c with
        | none => .error ("Invalid patch version: " ++ c)
        | some patch =>
          .ok { major := major, minor := minor, patch := patch,
                prerelease := versionPrerelease version }
  | _ =>
    .error ("Invalid version format: " ++ version ++ ". Expected: major.minor.patch")

/-- `SemVer::is_compatible_with` (manifest.rs lines 42-46): same major. -/
def SemVer.isCompatibleWith (a target : SemVer) : Bool :=
  a.major == target.major

/-- `SemVer::is_at_least` (manifest.rs lines 49-57). -/
def SemVer.isAtLeast (a target : SemVer) : Bool :=
  if a.major ≠ target.major then decide (a.major > target.major)
  else if a.minor ≠ target.minor then decide (a.minor > target.minor)
  else decide (a.patch ≥ target.patch)

/-! ## Plugin manifest (src/src/plugin/manifest.rs lines 81-328) -/

/-- `PluginCapabilities` (manifest.rs lines 84-106): one boolean per logical
operation, all defaulting to false. -/
structure PluginCapabilities where
  search : Bool := false
  getPopular : Bool := false
  getLatest : Bool := false
  getEpisodes : Bool := false
  getStreams : Bool := false
  getAnimeDetails : Bool := false
  scraping : Bool := false
  deriving DecidableEq, Repr

/-- `TargetPlatform` (manifest.rs lines 111-128). -/
inductive TargetPlatform where
  | universal
  | desktop
  | mobile
  | windows
  | macos
  | linux
  | ios
  | android
  deriving DecidableEq, BEq, Repr

/-- `ScrapingConfig` (manifest.rs lines 184-195).  The `selectors` JSON value
is never read by any embedded operation and is omitted. -/
structure ScrapingConfig where
  baseUrl : String
  userAgent : Option String := none
  rateLimitMs : Option Nat := none
  requiresJavascript : Bool := false
  deriving DecidableEq, Repr

/-- `PluginManifest` (manifest.rs lines 140-179).  The free-form `config`
JSON value is never read by any embedded operation and is omitted. -/
structure PluginManifest where
  id : String
  name : String
  version : String
  targetAyotoVersion : String
  maxAyotoVersion : Option String := none
  description : Option String := none
  author : Option String := none
  homepage : Option String := none
  icon : Option String := none
  providers : List String := []
  formats : List String := []
  anime4kSupport : Bool := false
  capabilities : PluginCapabilities := {}
  platforms : List TargetPlatform := []
  scrapingConfig : Option ScrapingConfig := none
  deriving DecidableEq, Repr

/-- `ValidationResult` (manifest.rs lines 198-203). -/
structure ValidationResult where
  isValid : Bool
  errors : List String
  warnings : List String
  deriving DecidableEq, Repr

/-- The known stream formats (manifest.rs line 292). -/
def validFormats : List String := ["m3u8", "mp4", "mkv", "webm", "torrent"]

/-- `PluginManifest::is_compatible_with_ayoto` (manifest.rs lines 227-249). -/
def PluginManifest.isCompatibleWithAyoto (m : PluginManifest) (ayotoVersion : String) :
    Except String Bool :=
  match SemVer.parse ayotoVersion with
  | .error e => .error e
  | .ok ayotoVer =>
    match SemVer.parse m.targetAyotoVersion with
    | .error e => .error e
    | .ok targetVer =>
      if !(ayotoVer.isCompatibleWith targetVer) then .ok false
      else if !(ayotoVer.isAtLeast targetVer) then .ok false
      else
        match m.maxAyotoVersion with
        | some maxVersion =>
          match SemVer.parse maxVersion with
          | .error e => .error e
          | .ok maxVer =>
            if !(ayotoVer.isCompatibleWith maxVer) then .ok false else .ok true
        | none => .ok true

/-- `PluginManifest::supports_platform` (manifest.rs lines 252-258). -/
def PluginManifest.supportsPlatform (m : PluginManifest) (platform : TargetPlatform) : Bool :=
  if m.platforms.isEmpty then true
  else m.platforms.contains TargetPlatform.universal || m.platforms.contains platform

/-- `PluginManifest::validate` (manifest.rs lines 261-327).  Each conditional
list mirrors one `errors.push` / `warnings.push` site, concatenated in source
order.  Rust `char::is_alphanumeric` is Unicode; `Char.isAlphanum` is its
ASCII restriction, which agrees on every ASCII id. -/
def PluginManifest.validate (m : PluginManifest) : ValidationResult :=
  let errors :=
    (if m.id.isEmpty then ["Plugin ID is required"]
     else if !(m.id.data.all fun c => c.isAlphanum || c = '-' || c = '_') then
       ["Plugin ID must contain only alphanumeric characters, hyphens, and underscores"]
     else [])
    ++ (if m.name.isEmpty then ["Plugin name is required"] else [])
    ++ (match SemVer.parse m.version with
        | .error e => ["Invalid plugin version: " ++ e]
        | .ok _ => [])
    ++ (match SemVer.parse m.targetAyotoVersion with
        | .error e => ["Invalid target Ayoto version: " ++ e]
        | .ok _ => [])
    ++ (match m.maxAyotoVersion with
        | some maxVer =>
          match SemVer.parse maxVer with
          | .error e => ["Invalid max Ayoto version: " ++ e]
          | .ok _ => []
        | none => [])
    ++ (if m.capabilities.scraping then
          match m.scrapingConfig with
          | some config =>
            if config.baseUrl.isEmpty then ["Scraping config requires a base_url"] else []
          | none => []
        else [])
  let warnings :=
    (m.formats.filterMap fun format =>
      if validFormats.contains format then none
      else some ("Unknown stream format: " ++ format ++
        ". Valid formats: [\"m3u8\", \"mp4\", \"mkv\", \"webm\", \"torrent\"]"))
    ++ (let hasAnyCapability := m.capabilities.search || m.capabilities.getPopular
          || m.capabilities.getLatest || m.capabilities.getEpisodes
          || m.capabilities.getStreams || m.capabilities.getAnimeDetails
        if !hasAnyCapability then ["Plugin has no capabilities enabled"] else [])
    ++ (if m.capabilities.scraping then
          match m.scrapingConfig with
          | none => ["Scraping capability is enabled but no scraping config provided"]
          | some _ => []
        else [])
  { isValid := errors.isEmpty, errors := errors, warnings := warnings }

/-! ## Registry model

Each backend keeps a `HashMap<String, Record>` behind an `RwLock`.  The map is
modelled as an association list whose key set has no duplicates by
construction: `insertKey` removes any previous binding and appends the new
one, which is observationally the map's replace-on-insert. -/

/-- `HashMap::get` (first binding of the key). -/
def lookupKey {α : Type} : List (String × α) → String → Option α
  | [], _ => none
  | (k, v) :: t, key => if k = key then some v else lookupKey t key

/-- `HashMap::remove`: drop every binding of the key. -/
def removeKey {α : Type} : List (String × α) → String → List (String × α)
  | [], _ => []
  | (k, v) :: t, key =>
    if k = key then removeKey t key else (k, v) :: removeKey t key

/-- `HashMap::insert`: replace any binding of the key with the new one. -/
def insertKey {α : Type} (l : List (String × α)) (key : String) (v : α) :
    List (String × α) :=
  removeKey l key ++ [(key, v)]

/-- Number of bindings of a key (1 for a present key in a well-formed map). -/
def countKey {α : Type} : List (String × α) → String → Nat
  | [], _ => 0
  | (k, _) :: t, key => (if k = key then 1 else 0) + countKey t key

theorem lookupKey_append {α : Type} (a b : List (String × α)) (key : String) :
    lookupKey (a ++ b) key =
      (lookupKey a key).elim (lookupKey b key) (fun v => some v) := by
  induction a with
  | nil => simp [lookupKey]
  | cons p t ih =>
    obtain ⟨k, v⟩ := p
    by_cases h : k = key <;> simp [lookupKey, h, ih]

theorem lookupKey_removeKey_self {α : Type} (l : List (String × α)) (key : String) :
    lookupKey (removeKey l key) key = none := by
  induction l with
  | nil => simp [removeKey, lookupKey]
  | cons p t ih =>
    obtain ⟨k, v⟩ := p
    by_cases h : k = key <;> simp [removeKey, lookupKey, h, ih]

theorem lookupKey_insertKey_self {α : Type} (l : List (String × α)) (key : String) (v : α) :
    lookupKey (insertKey l key v) key = some v := by
  simp [insertKey, lookupKey_append, lookupKey_removeKey_self, lookupKey]

theorem countKey_append {α : Type} (a b : List (String × α)) (key : String) :
    countKey (a ++ b) key = countKey a key + countKey b key := by
  induction a with
  | nil => simp [countKey]
  | cons p t ih =>
    obtain ⟨k, v⟩ := p
    simp [countKey, ih]
    omega

theorem countKey_removeKey_self {α : Type} (l : List (String × α)) (key : String) :
    countKey (removeKey l key) key = 0 := by
  induction l with
  | nil => simp [removeKey, countKey]
  | cons p t ih =>
    obtain ⟨k, v⟩ := p
    by_cases h : k = key <;> simp [removeKey, countKey, h, ih]

theorem countKey_insertKey_self {α : Type} (l : List (String × α)) (key : String) (v : α) :
    countKey (insertKey l key v) key = 1 := by
  simp [insertKey, countKey_append, countKey_removeKey_self, countKey]

/-! ## JSON (`.ayoto`) plugin loader (src/src/plugin/loader.rs) -/

/-- `PluginCompatibility` (loader.rs lines 82-93). -/
structure PluginCompatibility where
  isCompatible : Bool
  platformCompatible : Bool
  warnings : List String
  targetVersion : String
  currentVersion : String
  deriving DecidableEq, Repr

/-- `LoadedPlugin` (loader.rs lines 64-77).  `loaded_at` is wall-clock time,
passed in as `now`. -/
structure LoadedPlugin where
  manifest : PluginManifest
  enabled : Bool
  source : String
  loadedAt : Int
  lastError : Option String
  compatibility : PluginCompatibility
  deriving DecidableEq, Repr

/-- `PluginLoadResult` (loader.rs lines 98-103). -/
structure PluginLoadResult where
  success : Bool
  pluginId : Option String
  errors : List String
  warnings : List String
  deriving DecidableEq, Repr

/-- `PluginError` (src/src/plugin/types.rs, used by loader.rs unload). -/
structure PluginError where
  code : String
  message : String
  details : Option String
  deriving DecidableEq, Repr

namespace JsonLoader

/-- The JSON backend registry: id → loaded plugin. -/
abbrev Registry := List (String × LoadedPlugin)

/-- `PluginLoader::check_compatibility` (loader.rs lines 351-385).
`hostVersion` stands for the compiled-in `AYOTO_VERSION`; `currentPlatform`
for the `cfg`-detected platform. -/
def checkCompatibility (hostVersion : String) (currentPlatform : TargetPlatform)
    (m : PluginManifest) : PluginCompatibility :=
  let isCompatible :=
    match m.isCompatibleWithAyoto hostVersion with
    | .ok b => b
    | .error _ => false
  let warnings :=
    if !isCompatible then
      let currentMajor := match SemVer.parse hostVersion with
        | .ok v => v.major
        | .error _ => 0
      let targetMajor := match SemVer.parse m.targetAyotoVersion with
        | .ok v => v.major
        | .error _ => 0
      if currentMajor > targetMajor then
        ["This plugin was built for Ayoto v" ++ m.targetAyotoVersion ++
          ". API changes in v" ++ hostVersion ++ " may cause issues."]
      else []
    else []
  { isCompatible := isCompatible
    platformCompatible := m.supportsPlatform currentPlatform
    warnings := warnings
    targetVersion := m.targetAyotoVersion
    currentVersion := hostVersion }

/-- `PluginLoader::load_from_json` (loader.rs lines 153-238), from the point
where serde has produced a manifest (the `Ok` arm of line 158; a JSON parse
failure returns `success=false` before any of this and touches no state).
`lockFails` models `self.plugins.write()` returning `Err` (poisoned lock). -/
def loadFromJson (hostVersion : String) (currentPlatform : TargetPlatform)
    (now : Int) (st : Registry) (m : PluginManifest) (source : String)
    (lockFails : Bool) : PluginLoadResult × Registry :=
  let validation := m.validate
  if !validation.isValid then
    ({ success := false, pluginId := some m.id, errors := validation.errors,
       warnings := validation.warnings }, st)
  else
    let warnings := validation.warnings
    let compatibility := checkCompatibility hostVersion currentPlatform m
    let warnings := warnings ++
      (if !compatibility.isCompatible then
        ["Plugin \'" ++ m.name ++ "\' v" ++ m.version ++
          " was built for Ayoto v" ++ m.targetAyotoVersion ++
          " but current version is v" ++ hostVersion ++
          ". There may be compatibility issues."]
      else [])
    if !compatibility.platformCompatible then
      ({ success := false, pluginId := some m.id,
         errors := ["Plugin \'" ++ m.name ++ "\' does not support the current platform"],
         warnings := warnings }, st)
    else
      let loadedPlugin : LoadedPlugin :=
        { manifest := m, enabled := true, source := source, loadedAt := now,
          lastError := none, compatibility := compatibility }
      if lockFails then
        ({ success := false, pluginId := some m.id,
           errors := ["Failed to acquire write lock on plugins"],
           warnings := warnings }, st)
      else
        ({ success := true, pluginId := some m.id, errors := [],
           warnings := warnings }, insertKey st m.id loadedPlugin)

/-- `PluginLoader::get_plugin` (loader.rs lines 388-390). -/
def getPlugin (st : Registry) (pluginId : String) : Option LoadedPlugin :=
  lookupKey st pluginId

/-- `PluginLoader::unload_plugin` (loader.rs lines 429-445): `NOT_FOUND`
error on an unknown id, otherwise remove the record. -/
def unloadPlugin (st : Registry) (pluginId : String) :
    Except PluginError Unit × Registry :=
  match lookupKey st pluginId with
  | some _ => (.ok (), removeKey st pluginId)
  | none =>
    (.error { code := "NOT_FOUND",
              message := "Plugin \'" ++ pluginId ++ "\' not found",
              details := none }, st)

/-- `PluginLoader::set_plugin_enabled` (loader.rs lines 409-426). -/
def setPluginEnabled (st : Registry) (pluginId : String) (enabled : Bool) :
    Except PluginError Unit × Registry :=
  match lookupKey st pluginId with
  | some p => (.ok (), insertKey st pluginId { p with enabled := enabled })
  | none =>
    (.error { code := "NOT_FOUND",
              message := "Plugin \'" ++ pluginId ++ "\' not found",
              details := none }, st)

end JsonLoader

/-! ## ZPE (WASM) backend types (src/src/plugin/zpe/types.rs, mod.rs) -/

/-- `ZPE_ABI_VERSION` (zpe/mod.rs line 50). -/
def ZPE_ABI_VERSION : Nat := 1

/-- `ZpePluginType` (zpe/types.rs lines 96-104). -/
inductive ZpePluginType where
  | mediaProvider
  | streamProvider
  deriving DecidableEq, BEq, Repr

/-- `ZpeCapabilities` (zpe/types.rs lines 107-126). -/
structure ZpeCapabilities where
  search : Bool := false
  getPopular : Bool := false
  getLatest : Bool := false
  getEpisodes : Bool := false
  getStreams : Bool := false
  getAnimeDetails : Bool := false
  extractStream : Bool := false
  getHosterInfo : Bool := false
  deriving DecidableEq, Repr

/-- `ZpeManifest` (zpe/types.rs lines 10-33). -/
structure ZpeManifest where
  id : String
  name : String
  version : String
  targetAyotoVersion : String
  author : Option String := none
  description : Option String := none
  homepage : Option String := none
  pluginType : ZpePluginType := .mediaProvider
  capabilities : ZpeCapabilities := {}
  icon : Option String := none
  abiVersion : Nat := ZPE_ABI_VERSION
  deriving DecidableEq, Repr

/-- `ZpeValidationResult` (zpe/types.rs lines 129-138). -/
structure ZpeValidationResult where
  valid : Bool
  errors : List String
  warnings : List String
  deriving DecidableEq, Repr

/-- `ZpeManifest::validate` (zpe/types.rs lines 54-82): required id, name and
version; an ABI-version difference is a warning only. -/
def ZpeManifest.validate (m : ZpeManifest) : ZpeValidationResult :=
  let errors :=
    (if m.id.isEmpty then ["Plugin ID is required"] else [])
    ++ (if m.name.isEmpty then ["Plugin name is required"] else [])
    ++ (if m.version.isEmpty then ["Plugin version is required"] else [])
  let warnings :=
    if m.abiVersion ≠ ZPE_ABI_VERSION then
      ["Plugin ABI version " ++ toString m.abiVersion ++
        " differs from current version " ++ toString ZPE_ABI_VERSION]
    else []
  { valid := errors.isEmpty, errors := errors, warnings := warnings }

/-- `ZpeLoadResult` (zpe/types.rs lines 141-152). -/
structure ZpeLoadResult where
  success : Bool
  pluginId : Option String
  errors : List String
  warnings : List String
  deriving DecidableEq, Repr

/-- `ZpeAnime` (zpe/types.rs lines 185-218).  The `f32` rating is carried as
its 32-bit pattern; no embedded operation computes with it. -/
structure ZpeAnime where
  id : String := ""
  title : String := ""
  altTitles : List String := []
  coverUrl : Option String := none
  bannerUrl : Option String := none
  description : Option String := none
  anilistId : Option Nat := none
  malId : Option Nat := none
  episodeCount : Option Nat := none
  year : Option Nat := none
  ratingBits : Option Nat := none
  status : Option String := none
  mediaType : Option String := none
  genres : List String := []
  isAiring : Option Bool := none
  deriving DecidableEq, Repr

/-- `ZpeAnimeList` (zpe/types.rs lines 221-232). -/
structure ZpeAnimeList where
  items : List ZpeAnime := []
  hasNextPage : Bool := false
  currentPage : Nat := 0
  totalResults : Option Nat := none
  deriving DecidableEq, Repr

/-- `ZpeEpisode` (zpe/types.rs lines 235-254). -/
structure ZpeEpisode where
  id : String := ""
  number : Nat := 0
  title : Option String := none
  thumbnailUrl : Option String := none
  description : Option String := none
  duration : Option Nat := none
  airDate : Option String := none
  isFiller : Option Bool := none
  deriving DecidableEq, Repr

/-- `ZpeEpisodeList` (zpe/types.rs lines 257-268). -/
structure ZpeEpisodeList where
  items : List ZpeEpisode := []
  hasNextPage : Bool := false
  currentPage : Nat := 0
  totalEpisodes : Nat := 0
  deriving DecidableEq, Repr

/-- `ZpeStreamSource` (zpe/types.rs lines 271-288); headers as pairs. -/
structure ZpeStreamSource where
  url : String := ""
  quality : String := ""
  server : Option String := none
  format : String := ""
  anime4kSupport : Bool := false
  isDefault : Bool := false
  headers : List (String × String) := []
  deriving DecidableEq, Repr

/-- `ZpeStreamSourceList` (zpe/types.rs lines 291-296). -/
structure ZpeStreamSourceList where
  items : List ZpeStreamSource := []
  deriving DecidableEq, Repr

/-- A running WASM instance (`ZpePluginInstance`, zpe/runtime.rs lines
82-356), abstracted to the behaviour of its exported operations: each method
serializes its arguments, round-trips through the guest and decodes the
result envelope, so its end-to-end behaviour is a function from the arguments
to `Result<_, String>`.  `initOutcome` is the outcome of `initialize()`
(zpe/runtime.rs lines 220-227).  The byte-level call protocol itself is
embedded separately as `callJsonFunction` below. -/
structure ZpeInstance where
  initOutcome : Except String Unit
  searchFn : String → Nat → Except String ZpeAnimeList
  getPopularFn : Nat → Except String ZpeAnimeList
  getLatestFn : Nat → Except String ZpeAnimeList
  getEpisodesFn : String → Nat → Except String ZpeEpisodeList
  getStreamsFn : String → String → Except String ZpeStreamSourceList
  getAnimeDetailsFn : String → Except String ZpeAnime
  extractStreamFn : String → Except String ZpeStreamSource

/-- `ZpePluginContainer` (zpe/loader.rs lines 35-46); the `instance` field is
named `inst` because `instance` is a Lean keyword. -/
structure ZpePluginContainer where
  manifest : ZpeManifest
  inst : ZpeInstance
  filePath : String
  enabled : Bool
  loadedAt : Int

/-- `check_version_compatibility`'s local `parse_version` closure
(zpe/loader.rs lines 778-788, identical in native/native_loader.rs lines
649-659): take the text before the first `-`, require three `.`-separated
`u32` components. -/
def parseVersionTriple (v : String) : Option (Nat × Nat × Nat) :=
  let core := (splitOnSep '-' v.data).headD []
  match splitOnSep '.' core with
  | [a, b, c] =>
    match rustParseU32L a, rustParseU32L b, rustParseU32L c with
    | some x, some y, some z => some (x, y, z)
    | _, _, _ => none
  | _ => none

/-- `check_version_compatibility` (zpe/loader.rs lines 775-794, identical in
native/native_loader.rs lines 645-668): both versions parse and the majors
match. -/
def checkVersionCompatibility (hostVersion targetVersion : String) : Bool :=
  match parseVersionTriple hostVersion, parseVersionTriple targetVersion with
  | some (curMajor, _, _), some (targetMajor, _, _) => curMajor == targetMajor
  | _, _ => false

namespace ZpeLoader

/-- The ZPE backend registry: id → container. -/
abbrev Registry := List (String × ZpePluginContainer)

/-- Outcomes of reading the `.zpe` ZIP archive (`ZpePluginLoader::load_plugin`,
zpe/loader.rs lines 161-255).  Each field is the result of one fallible source
step on the opened archive. -/
structure ZpeArchive where
  /-- `read_manifest` (lines 305-315): missing `manifest.json`, read failure,
  or JSON parse failure, each with its message as the payload. -/
  manifestResult : Except String ZpeManifest
  /-- `read_icon_from_archive` (lines 337-366): `some dataUri` when a valid,
  non-empty, ≤ 1 MiB icon file is embedded; `none` otherwise. -/
  embeddedIcon : Option String
  /-- `read_wasm` (lines 318-328): `Ok` when `plugin.wasm` is present and
  readable; error payload e.g. `plugin.wasm not found in archive`. -/
  wasmResult : Except String Unit
  /-- `runtime.create_instance` on the wasm bytes (lines 244-255 and
  zpe/runtime.rs lines 68-73, 100-128): compile, instantiate, find the
  `memory` export. -/
  instanceResult : Except String ZpeInstance

/-- The inputs of one `ZpePluginLoader::load_plugin` call (zpe/loader.rs
lines 130-302). -/
structure ZpeLoadInput where
  path : String
  /-- `path.exists()` (line 136). -/
  fileExists : Bool
  /-- extension = `zpe` (line 147). -/
  extensionOk : Bool
  /-- `File::open` + `zip::ZipArchive::new` (lines 162-186); error payload is
  the formatted message. -/
  archiveResult : Except String ZpeArchive
  /-- `self.plugins.write()` poisoned (line 284). -/
  lockFails : Bool

/-- `ZpePluginLoader::load_plugin` (zpe/loader.rs lines 130-302).
`hostVersion` stands for `env!("CARGO_PKG_VERSION")`; `now` for the load
timestamp. -/
def loadPlugin (hostVersion : String) (now : Int) (st : Registry)
    (inp : ZpeLoadInput) : ZpeLoadResult × Registry :=
  if !inp.fileExists then
    ({ success := false, pluginId := none,
       errors := ["File not found: " ++ inp.path], warnings := [] }, st)
  else if !inp.extensionOk then
    ({ success := false, pluginId := none,
       errors := ["Invalid file extension. Expected .zpe"], warnings := [] }, st)
  else
    match inp.archiveResult with
    | .error e =>
      ({ success := false, pluginId := none, errors := [e], warnings := [] }, st)
    | .ok archive =>
      match archive.manifestResult with
      | .error e =>
        ({ success := false, pluginId := none, errors := [e], warnings := [] }, st)
      | .ok manifest0 =>
        let manifest :=
          match archive.embeddedIcon with
          | some iconDataUri => { manifest0 with icon := some iconDataUri }
          | none => manifest0
        let validation := manifest.validate
        if !validation.valid then
          ({ success := false, pluginId := none, errors := validation.errors,
             warnings := [] }, st)
        else
          let warnings := validation.warnings
          let pluginId := manifest.id
          let warnings := warnings ++
            (if (lookupKey st pluginId).isSome then
              ["Plugin \'" ++ pluginId ++ "\' already loaded, replacing"]
            else [])
          match archive.wasmResult with
          | .error e =>
            ({ success := false, pluginId := some pluginId, errors := [e],
               warnings := warnings }, st)
          | .ok _ =>
            match archive.instanceResult with
            | .error e =>
              ({ success := false, pluginId := some pluginId,
                 errors := ["Failed to create WASM instance: " ++ e],
                 warnings := warnings }, st)
            | .ok inst =>
              let warnings := warnings ++
                (match inst.initOutcome with
                 | .error e => ["Plugin initialization warning: " ++ e]
                 | .ok _ => [])
              let warnings := warnings ++
                (if !checkVersionCompatibility hostVersion manifest.targetAyotoVersion then
                  ["Plugin targets Ayoto v" ++ manifest.targetAyotoVersion ++
                    ", current version is v" ++ hostVersion]
                else [])
              let container : ZpePluginContainer :=
                { manifest := manifest, inst := inst, filePath := inp.path,
                  enabled := true, loadedAt := now }
              if inp.lockFails then
                ({ success := false, pluginId := some pluginId,
                   errors := ["Failed to acquire write lock"],
                   warnings := warnings }, st)
              else
                ({ success := true, pluginId := some pluginId, errors := [],
                   warnings := warnings }, insertKey st pluginId container)

/-- `ZpePluginLoader::unload_plugin` (zpe/loader.rs lines 523-534): not-found
error on an unknown id, otherwise shut the instance down (a no-op on the
model) and remove the container. -/
def unloadPlugin (st : Registry) (pluginId : String) :
    Except String Unit × Registry :=
  match lookupKey st pluginId with
  | some _ => (.ok (), removeKey st pluginId)
  | none => (.error ("Plugin \'" ++ pluginId ++ "\' not found"), st)

/-- `ZpePluginLoader::get_plugin` (zpe/loader.rs lines 545-547), reduced to
the container (the source maps it through `info()`). -/
def getPlugin (st : Registry) (pluginId : String) : Option ZpePluginContainer :=
  lookupKey st pluginId

/-- The dispatch shape shared verbatim by the seven `ZpePluginLoader::plugin_*`
operations (zpe/loader.rs lines 564-749): resolve the container by id
(not-found error), reject a disabled container, reject a container whose
manifest lacks the operation's capability flag (each operation formats its
own capability-error message, passed here as `capErr`), and only then call
the instance method. -/
def dispatch {α : Type} (st : Registry) (pluginId : String) (capErr : String)
    (cap : ZpeCapabilities → Bool) (call : ZpeInstance → Except String α) :
    Except String α :=
  match lookupKey st pluginId with
  | none => .error ("Plugin \'" ++ pluginId ++ "\' not found")
  | some container =>
    if !container.enabled then
      .error ("Plugin \'" ++ pluginId ++ "\' is disabled")
    else if !(cap container.manifest.capabilities) then
      .error capErr
    else
      call container.inst

/-- `ZpePluginLoader::plugin_search` (zpe/loader.rs lines 564-587). -/
def pluginSearch (st : Registry) (pluginId query : String) (page : Nat) :
    Except String ZpeAnimeList :=
  dispatch st pluginId ("Plugin \'" ++ pluginId ++ "\' does not support search")
    (fun c => c.search) (fun i => i.searchFn query page)

/-- `ZpePluginLoader::plugin_get_popular` (zpe/loader.rs lines 590-611). -/
def pluginGetPopular (st : Registry) (pluginId : String) (page : Nat) :
    Except String ZpeAnimeList :=
  dispatch st pluginId ("Plugin \'" ++ pluginId ++ "\' does not support get_popular")
    (fun c => c.getPopular) (fun i => i.getPopularFn page)

/-- `ZpePluginLoader::plugin_get_latest` (zpe/loader.rs lines 614-635). -/
def pluginGetLatest (st : Registry) (pluginId : String) (page : Nat) :
    Except String ZpeAnimeList :=
  dispatch st pluginId ("Plugin \'" ++ pluginId ++ "\' does not support get_latest")
    (fun c => c.getLatest) (fun i => i.getLatestFn page)

/-- `ZpePluginLoader::plugin_get_episodes` (zpe/loader.rs lines 638-664). -/
def pluginGetEpisodes (st : Registry) (pluginId animeId : String) (page : Nat) :
    Except String ZpeEpisodeList :=
  dispatch st pluginId ("Plugin \'" ++ pluginId ++ "\' does not support get_episodes")
    (fun c => c.getEpisodes) (fun i => i.getEpisodesFn animeId page)

/-- `ZpePluginLoader::plugin_get_streams` (zpe/loader.rs lines 667-693). -/
def pluginGetStreams (st : Registry) (pluginId animeId episodeId : String) :
    Except String ZpeStreamSourceList :=
  dispatch st pluginId ("Plugin \'" ++ pluginId ++ "\' does not support get_streams")
    (fun c => c.getStreams) (fun i => i.getStreamsFn animeId episodeId)

/-- `ZpePluginLoader::plugin_get_anime_details` (zpe/loader.rs lines 696-721). -/
def pluginGetAnimeDetails (st : Registry) (pluginId animeId : String) :
    Except String ZpeAnime :=
  dispatch st pluginId ("Plugin \'" ++ pluginId ++ "\' does not support get_anime_details")
    (fun c => c.getAnimeDetails) (fun i => i.getAnimeDetailsFn animeId)

/-- `ZpePluginLoader::plugin_extract_stream` (zpe/loader.rs lines 724-749). -/
def pluginExtractStream (st : Registry) (pluginId url : String) :
    Except String ZpeStreamSource :=
  dispatch st pluginId ("Plugin \'" ++ pluginId ++ "\' does not support extract_stream")
    (fun c => c.extractStream) (fun i => i.extractStreamFn url)

end ZpeLoader

/-! ## ZPE cross-boundary call protocol (src/src/plugin/zpe/runtime.rs) -/

/-- The guest's exported linear memory: a byte at every address below `size`
(wasmtime `Memory`). -/
structure ZpeMemory where
  size : Nat
  byteAt : Nat → Nat

/-- wasmtime `Memory::write` (used at zpe/runtime.rs lines 201-203): fails
when the range `[ptr, ptr + len)` is out of bounds. -/
def memWrite (mem : ZpeMemory) (ptr : Nat) (bytes : List Nat) :
    Except String ZpeMemory :=
  if ptr + bytes.length ≤ mem.size then
    .ok { size := mem.size,
          byteAt := fun i =>
            if ptr ≤ i ∧ i < ptr + bytes.length then bytes.getD (i - ptr) 0
            else mem.byteAt i }
  else .error "Failed to write to memory: out of bounds"

/-- wasmtime `Memory::read` into a `len`-byte buffer (`read_string`,
zpe/runtime.rs lines 209-217): fails when out of bounds, otherwise yields
exactly the `len` bytes starting at `ptr`. -/
def memRead (mem : ZpeMemory) (ptr len : Nat) : Except String (List Nat) :=
  if ptr + len ≤ mem.size then
    .ok ((List.range len).map fun i => mem.byteAt (ptr + i))
  else .error "Failed to read from memory: out of bounds"

/-- The wasm guest as seen by `call_json_function`: its exported `allocate`,
the requested entry point, and its linear memory.  `allocate` and the entry
point may be absent (`get_typed_func` failure) or trap (`call` failure); the
entry point returns the packed 64-bit value together with the memory as left
by the call. -/
structure WasmGuest where
  /-- `get_typed_func::<i32, i32>(_, "allocate")` succeeds. -/
  allocateExists : Bool
  /-- The guest allocator: size ↦ pointer, or a trap message. -/
  allocate : Nat → Except String Nat
  /-- `get_typed_func::<(i32, i32), i64>(_, name)` succeeds. -/
  entryExists : Bool
  /-- The entry point on `(ptr, len)` and the memory it sees; returns the
  packed `i64` (a 64-bit pattern) and the memory after the call. -/
  entry : Nat → Nat → ZpeMemory → Except String (Nat × ZpeMemory)
  mem : ZpeMemory

/-- `ZpePluginInstance::call_json_function` (zpe/runtime.rs lines 161-185)
together with its helper `write_string` (lines 188-206) and `read_string`
(lines 209-217), at the byte level:

1. `write_string`: obtain the input address from the guest's exported
   `allocate(len)` — the host never chooses a guest address — then copy the
   payload there;
2. resolve the entry point, call it with `(ptr, len)`;
3. unpack the returned `i64` as pointer = high 32 bits, length = low 32 bits
   (`result >> 32` / `result & 0xFFFFFFFF`, both truncated to `i32`; on a
   64-bit pattern these are `r / 2^32` and `r % 2^32`);
4. error `Function returned null` when the pointer half is zero, otherwise
   read exactly `len` bytes at the pointer.

The final `String::from_utf8` decode of the source operates on the bytes read
here and does not change which bytes are read. -/
def callJsonFunction (g : WasmGuest) (name : String) (input : List Nat) :
    Except String (List Nat) :=
  if !g.allocateExists then
    .error "Plugin must export \'allocate(size: i32) -> i32\' function"
  else
    match g.allocate input.length with
    | .error e => .error ("allocate failed: " ++ e)
    | .ok inputPtr =>
      match memWrite g.mem inputPtr input with
      | .error e => .error e
      | .ok mem1 =>
        if !g.entryExists then
          .error ("Function \'" ++ name ++ "\' not found or wrong signature")
        else
          match g.entry inputPtr input.length mem1 with
          | .error e => .error ("Function \'" ++ name ++ "\' failed: " ++ e)
          | .ok (r, mem2) =>
            let r64 := r % 2 ^ 64
            let resultPtr := r64 / 2 ^ 32
            let resultLen := r64 % 2 ^ 32
            if resultPtr = 0 then .error "Function returned null"
            else memRead mem2 resultPtr resultLen

/-! ## Native dynamic-library backend
(src/src/plugin/native/{ffi_types,plugin_trait,native_loader}.rs) -/

/-- `PLUGIN_ABI_VERSION` (native/plugin_trait.rs line 225). -/
def PLUGIN_ABI_VERSION : Nat := 1

/-- `PluginMetadata` (native/ffi_types.rs lines 18-36). -/
structure PluginMetadata where
  id : String
  name : String
  version : String
  author : Option String := none
  description : Option String := none
  targetAyotoVersion : String
  pluginType : Nat := 0
  platforms : Nat := 0xFFFFFFFF
  deriving DecidableEq, Repr

/-- `FfiResult<T>` (native/ffi_types.rs lines 71-77): success flag, value
(meaningful on success) and error message (meaningful on failure). -/
structure FfiResult (α : Type) where
  success : Bool
  value : α
  error : String
  deriving DecidableEq, Repr

/-- `FfiAnime` (native/ffi_types.rs lines 117-150); the `f32` rating is
carried as its 32-bit pattern. -/
structure FfiAnime where
  id : String := ""
  title : String := ""
  altTitles : List String := []
  coverUrl : Option String := none
  bannerUrl : Option String := none
  description : Option String := none
  anilistId : Option Nat := none
  malId : Option Nat := none
  episodeCount : Option Nat := none
  year : Option Nat := none
  ratingBits : Option Nat := none
  status : Option String := none
  mediaType : Option String := none
  genres : List String := []
  isAiring : Option Bool := none
  deriving DecidableEq, Repr

/-- `FfiAnimeList` (native/ffi_types.rs lines 153-163). -/
structure FfiAnimeList where
  items : List FfiAnime := []
  hasNextPage : Bool := false
  currentPage : Nat := 0
  totalResults : Option Nat := none
  deriving DecidableEq, Repr

/-- `FfiEpisode` (native/ffi_types.rs lines 171-190). -/
structure FfiEpisode where
  id : String := ""
  number : Nat := 0
  title : Option String := none
  thumbnailUrl : Option String := none
  description : Option String := none
  duration : Option Nat := none
  airDate : Option String := none
  isFiller : Option Bool := none
  deriving DecidableEq, Repr

/-- `FfiEpisodeList` (native/ffi_types.rs lines 193-203). -/
structure FfiEpisodeList where
  items : List FfiEpisode := []
  hasNextPage : Bool := false
  currentPage : Nat := 0
  totalEpisodes : Nat := 0
  deriving DecidableEq, Repr

/-- `FfiStreamSource` (native/ffi_types.rs lines 218-233); `format` is the
`u8` stream-format constant, headers as pairs. -/
structure FfiStreamSource where
  url : String := ""
  quality : String := ""
  server : Option String := none
  format : Nat := 0
  anime4kSupport : Bool := false
  isDefault : Bool := false
  headers : List (String × String) := []
  deriving DecidableEq, Repr

/-- `FfiStreamSourceList` (native/ffi_types.rs lines 252-256). -/
structure FfiStreamSourceList where
  items : List FfiStreamSource := []
  deriving DecidableEq, Repr

/-- The plugin object behind the library's `create_plugin` factory
(`Box<dyn AyotoPlugin>`, native/plugin_trait.rs lines 25-84), abstracted to
the behaviour of the trait methods the loader calls.  `initOutcome` is the
`FfiResult<()>` of `initialize` (the model's plugins are deterministic in
their configuration, which the loader builds identically for every call). -/
structure NativePluginImpl where
  metadata : PluginMetadata
  /-- `get_capabilities().flags` — the `u32` capability bitmask. -/
  capabilities : Nat
  /-- Outcome of `initialize(&config)`. -/
  initOutcome : FfiResult Unit
  searchFn : String → Nat → FfiResult FfiAnimeList
  getEpisodesFn : String → Nat → FfiResult FfiEpisodeList
  getStreamsFn : String → String → FfiResult FfiStreamSourceList

/-- The dynamic library on disk as `load_library_unix` observes it
(native/native_loader.rs lines 406-462). -/
structure NativeLibrary where
  /-- `dlopen` returns non-null. -/
  opensOk : Bool
  /-- `dlerror()` text when `dlopen` fails. -/
  dlErr : String := ""
  /-- `dlsym("get_plugin_abi_version")` is non-null. -/
  hasAbiSymbol : Bool
  /-- The value the ABI accessor returns (`u32`). -/
  abiVersion : Nat
  /-- `dlsym("create_plugin")` is non-null. -/
  hasCreateSymbol : Bool
  /-- `create_plugin()` returns null. -/
  factoryReturnsNull : Bool
  /-- The plugin object obtained when the factory returns non-null. -/
  plugin : NativePluginImpl

/-- Result and handle bookkeeping of `load_library_unix`: the load result,
whether `dlopen` succeeded (a handle was acquired), and whether `dlclose` was
called on that handle before returning. -/
structure UnixLoadOutcome where
  result : Except String NativePluginImpl
  handleOpened : Bool
  handleClosed : Bool

/-- `NativePluginLoader::load_library_unix` (native/native_loader.rs lines
406-462): open the library; resolve and call the ABI accessor, closing the
handle on a missing symbol or on a version different from
`PLUGIN_ABI_VERSION`; resolve the factory, closing on a missing symbol; call
it, closing on a null return; otherwise hand the open handle and the plugin
to the caller. -/
def loadLibraryUnix (lib : NativeLibrary) : UnixLoadOutcome :=
  if !lib.opensOk then
    { result := .error ("Failed to load library: " ++ lib.dlErr),
      handleOpened := false, handleClosed := false }
  else if !lib.hasAbiSymbol then
    { result := .error "Plugin missing get_plugin_abi_version function",
      handleOpened := true, handleClosed := true }
  else if lib.abiVersion ≠ PLUGIN_ABI_VERSION then
    { result := .error ("ABI version mismatch: plugin has v" ++
        toString lib.abiVersion ++ ", expected v" ++ toString PLUGIN_ABI_VERSION),
      handleOpened := true, handleClosed := true }
  else if !lib.hasCreateSymbol then
    { result := .error "Plugin missing create_plugin function",
      handleOpened := true, handleClosed := true }
  else if lib.factoryReturnsNull then
    { result := .error "create_plugin returned null",
      handleOpened := true, handleClosed := true }
  else
    { result := .ok lib.plugin, handleOpened := true, handleClosed := false }

/-- `NativePluginInfo` (native/native_loader.rs lines 166-193). -/
structure NativePluginInfo where
  id : String
  name : String
  version : String
  author : Option String
  description : Option String
  targetAyotoVersion : String
  pluginType : Nat
  capabilities : Nat
  libraryPath : String
  enabled : Bool
  isCompatible : Bool
  loadedAt : Int
  deriving DecidableEq, Repr

/-- `NativePluginContainer` (native/native_loader.rs lines 84-98):  plugin
object, owned library handle, path, init flag, cached metadata.  `handleOpen`
models `handle: Option<*mut c_void>` being `Some`. -/
structure NativePluginContainer where
  plugin : NativePluginImpl
  handleOpen : Bool
  libraryPath : String
  initialized : Bool
  metadata : NativePluginInfo

/-- `NativePluginLoadResult` (native/native_loader.rs lines 202-211). -/
structure NativePluginLoadResult where
  success : Bool
  pluginId : Option String
  errors : List String
  warnings : List String
  deriving DecidableEq, Repr

namespace NativeLoader

/-- The native backend registry: id → container. -/
abbrev Registry := List (String × NativePluginContainer)

/-- The inputs of one `NativePluginLoader::load_plugin` call. -/
structure NativeLoadInput where
  path : String
  /-- `path.exists()` (line 263). -/
  fileExists : Bool
  /-- extension equals `get_plugin_extension()` (line 275). -/
  extensionOk : Bool
  lib : NativeLibrary
  /-- `self.plugins.write()` poisoned (line 380). -/
  lockFails : Bool

/-- Result and handle bookkeeping of a whole `load_plugin` call: `handleOpened`
is whether `dlopen` succeeded during the call, `handleClosed` whether
`dlclose` ran on that handle before the call returned (either inside
`load_library_unix` or through `NativePluginContainer::drop`, lines 131-158,
when the freshly built container is dropped without entering the registry).
On success the open handle is owned by the container stored in the registry:
`handleOpened = true`, `handleClosed = false`, and the handle is not leaked. -/
structure NativeLoadOutcome where
  result : NativePluginLoadResult
  registry : Registry
  handleOpened : Bool
  handleClosed : Bool

/-- `NativePluginLoader::initialize_plugin` (native/native_loader.rs lines
525-545): look the container up, inject the HTTP context, call `initialize`;
on success mark the container initialized, otherwise return the FFI error. -/
def initializePlugin (st : Registry) (pluginId : String) :
    Except String Unit × Registry :=
  match lookupKey st pluginId with
  | some container =>
    let r := container.plugin.initOutcome
    if r.success then
      (.ok (), insertKey st pluginId { container with initialized := true })
    else
      (.error r.error, st)
  | none => (.error ("Plugin \'" ++ pluginId ++ "\' not found"), st)

/-- `NativePluginLoader::load_plugin` (native/native_loader.rs lines 257-403).
After a successful `load_library_unix` the source reads the metadata and
returns an error on an empty id *without* closing the handle (the raw
pointer is simply dropped): the outcome records `handleClosed = false` there.
In the poisoned-lock branch the container (which owns the handle) is dropped,
so its `Drop` impl closes the handle. -/
def loadPlugin (hostVersion : String) (now : Int) (st : Registry)
    (inp : NativeLoadInput) : NativeLoadOutcome :=
  if !inp.fileExists then
    { result := { success := false, pluginId := none,
                  errors := ["Plugin file not found: " ++ inp.path],
                  warnings := [] },
      registry := st, handleOpened := false, handleClosed := false }
  else if !inp.extensionOk then
    { result := { success := false, pluginId := none,
                  errors := ["Invalid plugin extension"], warnings := [] },
      registry := st, handleOpened := false, handleClosed := false }
  else
    let unix := loadLibraryUnix inp.lib
    match unix.result with
    | .error e =>
      { result := { success := false, pluginId := none, errors := [e],
                    warnings := [] },
        registry := st, handleOpened := unix.handleOpened,
        handleClosed := unix.handleClosed }
    | .ok plugin =>
      let metadata := plugin.metadata
      let pluginId := metadata.id
      if pluginId.isEmpty then
        { result := { success := false, pluginId := none,
                      errors := ["Plugin has empty ID"], warnings := [] },
          registry := st, handleOpened := true, handleClosed := false }
      else
        let warnings :=
          if (lookupKey st pluginId).isSome then
            ["Plugin \'" ++ pluginId ++ "\' already loaded, replacing"]
          else []
        let isCompatible :=
          checkVersionCompatibility hostVersion metadata.targetAyotoVersion
        let warnings := warnings ++
          (if !isCompatible then
            ["Plugin \'" ++ pluginId ++ "\' targets Ayoto v" ++
              metadata.targetAyotoVersion ++ ", current version is v" ++ hostVersion]
          else [])
        let info : NativePluginInfo :=
          { id := pluginId, name := metadata.name, version := metadata.version,
            author := metadata.author, description := metadata.description,
            targetAyotoVersion := metadata.targetAyotoVersion,
            pluginType := metadata.pluginType,
            capabilities := plugin.capabilities,
            libraryPath := inp.path, enabled := true,
            isCompatible := isCompatible, loadedAt := now }
        let container : NativePluginContainer :=
          { plugin := plugin, handleOpen := true, libraryPath := inp.path,
            initialized := false, metadata := info }
        if inp.lockFails then
          { result := { success := false, pluginId := some pluginId,
                        errors := ["Failed to acquire write lock"],
                        warnings := warnings },
            registry := st, handleOpened := true, handleClosed := true }
        else
          let st1 := insertKey st pluginId container
          let initStep := initializePlugin st1 pluginId
          let warnings := warnings ++
            (match initStep.1 with
             | .error e => ["Plugin initialization warning: " ++ e]
             | .ok _ => [])
          { result := { success := true, pluginId := some pluginId,
                        errors := [], warnings := warnings },
            registry := initStep.2, handleOpened := true, handleClosed := false }

/-- `NativePluginLoader::unload_plugin` (native/native_loader.rs lines
548-558): not-found error on an unknown id, otherwise remove the container
(whose drop shuts the plugin down and closes the handle). -/
def unloadPlugin (st : Registry) (pluginId : String) :
    Except String Unit × Registry :=
  match lookupKey st pluginId with
  | some _ => (.ok (), removeKey st pluginId)
  | none => (.error ("Plugin \'" ++ pluginId ++ "\' not found"), st)

/-- `NativePluginLoader::get_plugin` (native/native_loader.rs lines 569-575). -/
def getPlugin (st : Registry) (pluginId : String) : Option NativePluginInfo :=
  (lookupKey st pluginId).map (fun c => c.metadata)

/-- `NativePluginLoader::plugin_search` (native/native_loader.rs lines
578-588): resolve the container by id and call the plugin's method — there is
no enabled check and no capability check on this path. -/
def pluginSearch (st : Registry) (pluginId query : String) (page : Nat) :
    Except String FfiAnimeList :=
  match lookupKey st pluginId with
  | none => .error ("Plugin \'" ++ pluginId ++ "\' not found")
  | some container =>
    let r := container.plugin.searchFn query page
    if r.success then .ok r.value else .error r.error

/-- `NativePluginLoader::plugin_get_episodes` (native/native_loader.rs lines
591-601): same shape, no enabled or capability check. -/
def pluginGetEpisodes (st : Registry) (pluginId animeId : String) (page : Nat) :
    Except String FfiEpisodeList :=
  match lookupKey st pluginId with
  | none => .error ("Plugin \'" ++ pluginId ++ "\' not found")
  | some container =>
    let r := container.plugin.getEpisodesFn animeId page
    if r.success then .ok r.value else .error r.error

/-- `NativePluginLoader::plugin_get_streams` (native/native_loader.rs lines
604-614): same shape, no enabled or capability check. -/
def pluginGetStreams (st : Registry) (pluginId animeId episodeId : String) :
    Except String FfiStreamSourceList :=
  match lookupKey st pluginId with
  | none => .error ("Plugin \'" ++ pluginId ++ "\' not found")
  | some container =>
    let r := container.plugin.getStreamsFn animeId episodeId
    if r.success then .ok r.value else .error r.error

end NativeLoader

/-! ## Claim theorems -/

/-- Helper for C9: a three-component, fully parseable version string parses
to exactly those components. -/
theorem semver_parse_ok_of (s : String) (a b c : String) (x y z : Nat)
    (hp : versionParts s = [a, b, c]) (ha : rustParseU32 a = some x)
    (hb : rustParseU32 b = some y) (hc : rustParseU32 c = some z) :
    SemVer.parse s = .ok ⟨x, y, z, versionPrerelease s⟩ := by
  unfold SemVer.parse
  rw [hp]
  simp [ha, hb, hc]

/-- Helper for C9: a successful parse comes from exactly three parseable
components, and the fields are their values. -/
theorem semver_parse_ok_shape (s : String) (v : SemVer)
    (h : SemVer.parse s = .ok v) :
    ∃ a b c, versionParts s = [a, b, c] ∧ rustParseU32 a = some v.major ∧
      rustParseU32 b = some v.minor ∧ rustParseU32 c = some v.patch ∧
      v.prerelease = versionPrerelease s := by
  unfold SemVer.parse at h
  rcases hp : versionParts s with _ | ⟨a, _ | ⟨b, _ | ⟨c, _ | d⟩⟩⟩ <;>
    rw [hp] at h <;> simp at h
  rcases ha : rustParseU32 a with _ | x <;> rw [ha] at h <;> simp at h
  rcases hb : rustParseU32 b with _ | y <;> rw [hb] at h <;> simp at h
  rcases hc : rustParseU32 c with _ | z <;> rw [hc] at h <;> simp at h
  subst h
  exact ⟨a, b, c, rfl, ha, hb, hc, rfl⟩

/-- C9: `SemVer::parse` returns `Ok` exactly when, after splitting off a
`-`-introduced prerelease suffix, the remainder consists of three
`.`-separated components each parseable as a `u32`; then major, minor and
patch are those components (and the prerelease tag is the split-off suffix);
on every other input it returns a `ParseError` message, never a default
version. -/
theorem semver_parse_spec (s : String) :
    ((∃ v, SemVer.parse s = .ok v) ↔
      ∃ a b c x y z, versionParts s = [a, b, c] ∧ rustParseU32 a = some x ∧
        rustParseU32 b = some y ∧ rustParseU32 c = some z) ∧
    (∀ v a b c, SemVer.parse s = .ok v → versionParts s = [a, b, c] →
      rustParseU32 a = some v.major ∧ rustParseU32 b = some v.minor ∧
      rustParseU32 c = some v.patch ∧ v.prerelease = versionPrerelease s) ∧
    ((∀ v, SemVer.parse s ≠ .ok v) → ∃ e, SemVer.parse s = .error e) := by
  refine ⟨⟨?_, ?_⟩, ?_, ?_⟩
  · rintro ⟨v, hv⟩
    obtain ⟨a, b, c, hp, ha, hb, hc, -⟩ := semver_parse_ok_shape s v hv
    exact ⟨a, b, c, _, _, _, hp, ha, hb, hc⟩
  · rintro ⟨a, b, c, x, y, z, hp, ha, hb, hc⟩
    exact ⟨_, semver_parse_ok_of s a b c x y z hp ha hb hc⟩
  · intro v a b c hv hp
    obtain ⟨a2, b2, c2, hp2, ha, hb, hc, hpre⟩ := semver_parse_ok_shape s v hv
    rw [hp] at hp2
    obtain ⟨rfl, rfl, rfl⟩ : a = a2 ∧ b = b2 ∧ c = c2 := by
      simpa using hp2
    exact ⟨ha, hb, hc, hpre⟩
  · intro h
    cases he : SemVer.parse s with
    | ok v => exact absurd he (h v)
    | error e => exact ⟨e, rfl⟩

/-- Witness for C9: `"1.2.3-beta.1"` parses (via the characterization), and
`"1.2"` is rejected with an error. -/
theorem semver_parse_spec_witness :
    (∃ v, SemVer.parse "1.2.3-beta.1" = Except.ok v) ∧
    (∃ e, SemVer.parse "1.2" = Except.error e) :=
  ⟨(semver_parse_spec "1.2.3-beta.1").1.mpr
      ⟨"1", "2", "3", 1, 2, 3, rfl, rfl, rfl, rfl⟩,
   (semver_parse_spec "1.2").2.2 (fun v h => by
      rw [show SemVer.parse "1.2" =
          Except.error "Invalid version format: 1.2. Expected: major.minor.patch" from rfl] at h
      exact Except.noConfusion h)⟩

/-- A manifest with `capabilities.scraping = true` and no scraping config at
all; every other field is valid. -/
def scrapingNoConfigManifest : PluginManifest :=
  { id := "scraper", name := "Scraper", version := "1.0.0",
    targetAyotoVersion := "1.0.0",
    capabilities := { search := true, scraping := true } }

/-- Counterexample to C2: with `capabilities.scraping` set and the scraping
config object missing entirely, `validate()` only warns — `is_valid` stays
`true`, where the claim requires an error. -/
theorem scraping_missing_config_only_warns :
    scrapingNoConfigManifest.capabilities.scraping = true ∧
    scrapingNoConfigManifest.scrapingConfig = none ∧
    (scrapingNoConfigManifest.validate).isValid = true ∧
    (scrapingNoConfigManifest.validate).warnings =
      ["Scraping capability is enabled but no scraping config provided"] :=
  ⟨rfl, rfl, rfl, rfl⟩

/-- C2 (amended): when `capabilities.scraping` is set, `validate()` reports an
error (`is_valid = false`) when a scraping config is present with an empty
`base_url`; a missing scraping config object yields only a warning. -/
theorem scraping_base_url_rule :
    (∀ (m : PluginManifest) (cfg : ScrapingConfig),
      m.capabilities.scraping = true → m.scrapingConfig = some cfg →
      cfg.baseUrl.isEmpty = true → m.validate.isValid = false) ∧
    (∀ m : PluginManifest, m.capabilities.scraping = true →
      m.scrapingConfig = none →
      "Scraping capability is enabled but no scraping config provided" ∈
        m.validate.warnings) := by
  constructor
  · intro m cfg h1 h2 h3
    simp [PluginManifest.validate, h1, h2, h3]
  · intro m h1 h2
    simp [PluginManifest.validate, h1, h2]

/-- A manifest whose scraping config is present with an empty base URL. -/
def scrapingEmptyBaseUrlManifest : PluginManifest :=
  { scrapingNoConfigManifest with
    scrapingConfig := some { baseUrl := "" } }

/-- Witness for C2 (amended): the empty-`base_url` manifest is invalid, and
the config-less manifest carries the warning. -/
theorem scraping_base_url_rule_witness :
    scrapingEmptyBaseUrlManifest.validate.isValid = false ∧
    "Scraping capability is enabled but no scraping config provided" ∈
      scrapingNoConfigManifest.validate.warnings :=
  ⟨scraping_base_url_rule.1 scrapingEmptyBaseUrlManifest { baseUrl := "" } rfl rfl rfl,
   scraping_base_url_rule.2 scrapingNoConfigManifest rfl rfl⟩

/-- C8: on all three backends, `unload` of an id not in the registry returns
the backend's not-found error and leaves the registry exactly as it was; it
never silently succeeds. -/
theorem unload_unknown_id_not_found :
    (∀ (st : JsonLoader.Registry) (pluginId : String),
      lookupKey st pluginId = none →
      JsonLoader.unloadPlugin st pluginId =
        (.error { code := "NOT_FOUND",
                  message := "Plugin \'" ++ pluginId ++ "\' not found",
                  details := none }, st)) ∧
    (∀ (st : ZpeLoader.Registry) (pluginId : String),
      lookupKey st pluginId = none →
      ZpeLoader.unloadPlugin st pluginId =
        (.error ("Plugin \'" ++ pluginId ++ "\' not found"), st)) ∧
    (∀ (st : NativeLoader.Registry) (pluginId : String),
      lookupKey st pluginId = none →
      NativeLoader.unloadPlugin st pluginId =
        (.error ("Plugin \'" ++ pluginId ++ "\' not found"), st)) := by
  refine ⟨?_, ?_, ?_⟩
  · intro st pluginId h
    simp [JsonLoader.unloadPlugin, h]
  · intro st pluginId h
    simp [ZpeLoader.unloadPlugin, h]
  · intro st pluginId h
    simp [NativeLoader.unloadPlugin, h]

/-- Witness for C8: unloading `"ghost"` from the three empty registries. -/
theorem unload_unknown_id_not_found_witness :
    JsonLoader.unloadPlugin ([] : JsonLoader.Registry) "ghost" =
      (.error { code := "NOT_FOUND", message := "Plugin \'ghost\' not found",
                details := none }, []) ∧
    ZpeLoader.unloadPlugin ([] : ZpeLoader.Registry) "ghost" =
      (.error "Plugin \'ghost\' not found", []) ∧
    NativeLoader.unloadPlugin ([] : NativeLoader.Registry) "ghost" =
      (.error "Plugin \'ghost\' not found", []) :=
  ⟨unload_unknown_id_not_found.1 [] "ghost" rfl,
   unload_unknown_id_not_found.2.1 [] "ghost" rfl,
   unload_unknown_id_not_found.2.2 [] "ghost" rfl⟩

/-- Helper for C1: ZPE dispatch on an unknown id is the not-found error. -/
theorem zpe_dispatch_notFound {α : Type} (st : ZpeLoader.Registry)
    (pluginId capErr : String) (cap : ZpeCapabilities → Bool)
    (call : ZpeInstance → Except String α) (h : lookupKey st pluginId = none) :
    ZpeLoader.dispatch st pluginId capErr cap call =
      .error ("Plugin \'" ++ pluginId ++ "\' not found") := by
  simp [ZpeLoader.dispatch, h]

/-- Helper for C1: ZPE dispatch on a disabled container is the disabled
error, whatever the capability flags and the instance. -/
theorem zpe_dispatch_disabled {α : Type} (st : ZpeLoader.Registry)
    (pluginId capErr : String) (cap : ZpeCapabilities → Bool)
    (call : ZpeInstance → Except String α) (c : ZpePluginContainer)
    (h : lookupKey st pluginId = some c) (hd : c.enabled = false) :
    ZpeLoader.dispatch st pluginId capErr cap call =
      .error ("Plugin \'" ++ pluginId ++ "\' is disabled") := by
  simp [ZpeLoader.dispatch, h, hd]

/-- Helper for C1: ZPE dispatch on an enabled container without the
operation's capability flag is the capability error, for every instance
behaviour — the instance is never invoked. -/
theorem zpe_dispatch_noCap {α : Type} (st : ZpeLoader.Registry)
    (pluginId capErr : String) (cap : ZpeCapabilities → Bool)
    (call : ZpeInstance → Except String α) (c : ZpePluginContainer)
    (h : lookupKey st pluginId = some c) (he : c.enabled = true)
    (hc : cap c.manifest.capabilities = false) :
    ZpeLoader.dispatch st pluginId capErr cap call = .error capErr := by
  simp [ZpeLoader.dispatch, h, he, hc]

/-- Helper for C1: when the container exists, is enabled and has the
capability, ZPE dispatch is exactly the instance method call. -/
theorem zpe_dispatch_invoke {α : Type} (st : ZpeLoader.Registry)
    (pluginId capErr : String) (cap : ZpeCapabilities → Bool)
    (call : ZpeInstance → Except String α) (c : ZpePluginContainer)
    (h : lookupKey st pluginId = some c) (he : c.enabled = true)
    (hc : cap c.manifest.capabilities = true) :
    ZpeLoader.dispatch st pluginId capErr cap call = call c.inst := by
  simp [ZpeLoader.dispatch, h, he, hc]

/-- C1 (amended): on the WASM (ZPE) backend, every one of the seven logical
operations dispatches in the order existence → enabled → capability →
invocation: an unknown id yields the not-found error; a disabled record
yields the disabled error whatever its capabilities; an enabled record
without the operation's flag yields the "does not support" error *for every
possible instance behaviour* — in particular `plugin_get_streams` against a
manifest with `capabilities.get_streams = false` returns the capability
error and the instance's stream method is never invoked; and only when all
three checks pass is the instance method called.  The native backend's
dispatch functions (`plugin_search`, `plugin_get_episodes`,
`plugin_get_streams`) contrastingly perform only the existence check and
then always invoke the plugin method, regardless of enabled state or
capability flags. -/
theorem dispatch_gating_zpe_and_native :
    (∀ (st : ZpeLoader.Registry) (pid q animeId episodeId url : String) (page : Nat),
      lookupKey st pid = none →
      ZpeLoader.pluginSearch st pid q page =
        .error ("Plugin \'" ++ pid ++ "\' not found") ∧
      ZpeLoader.pluginGetPopular st pid page =
        .error ("Plugin \'" ++ pid ++ "\' not found") ∧
      ZpeLoader.pluginGetLatest st pid page =
        .error ("Plugin \'" ++ pid ++ "\' not found") ∧
      ZpeLoader.pluginGetEpisodes st pid animeId page =
        .error ("Plugin \'" ++ pid ++ "\' not found") ∧
      ZpeLoader.pluginGetStreams st pid animeId episodeId =
        .error ("Plugin \'" ++ pid ++ "\' not found") ∧
      ZpeLoader.pluginGetAnimeDetails st pid animeId =
        .error ("Plugin \'" ++ pid ++ "\' not found") ∧
      ZpeLoader.pluginExtractStream st pid url =
        .error ("Plugin \'" ++ pid ++ "\' not found")) ∧
    (∀ (st : ZpeLoader.Registry) (pid q animeId episodeId url : String)
       (page : Nat) (c : ZpePluginContainer),
      lookupKey st pid = some c → c.enabled = false →
      ZpeLoader.pluginSearch st pid q page =
        .error ("Plugin \'" ++ pid ++ "\' is disabled") ∧
      ZpeLoader.pluginGetPopular st pid page =
        .error ("Plugin \'" ++ pid ++ "\' is disabled") ∧
      ZpeLoader.pluginGetLatest st pid page =
        .error ("Plugin \'" ++ pid ++ "\' is disabled") ∧
      ZpeLoader.pluginGetEpisodes st pid animeId page =
        .error ("Plugin \'" ++ pid ++ "\' is disabled") ∧
      ZpeLoader.pluginGetStreams st pid animeId episodeId =
        .error ("Plugin \'" ++ pid ++ "\' is disabled") ∧
      ZpeLoader.pluginGetAnimeDetails st pid animeId =
        .error ("Plugin \'" ++ pid ++ "\' is disabled") ∧
      ZpeLoader.pluginExtractStream st pid url =
        .error ("Plugin \'" ++ pid ++ "\' is disabled")) ∧
    (∀ (st : ZpeLoader.Registry) (pid q animeId episodeId url : String)
       (page : Nat) (c : ZpePluginContainer),
      lookupKey st pid = some c → c.enabled = true →
      (c.manifest.capabilities.search = false →
        ZpeLoader.pluginSearch st pid q page =
          .error ("Plugin \'" ++ pid ++ "\' does not support search")) ∧
      (c.manifest.capabilities.getPopular = false →
        ZpeLoader.pluginGetPopular st pid page =
          .error ("Plugin \'" ++ pid ++ "\' does not support get_popular")) ∧
      (c.manifest.capabilities.getLatest = false →
        ZpeLoader.pluginGetLatest st pid page =
          .error ("Plugin \'" ++ pid ++ "\' does not support get_latest")) ∧
      (c.manifest.capabilities.getEpisodes = false →
        ZpeLoader.pluginGetEpisodes st pid animeId page =
          .error ("Plugin \'" ++ pid ++ "\' does not support get_episodes")) ∧
      (c.manifest.capabilities.getStreams = false →
        ZpeLoader.pluginGetStreams st pid animeId episodeId =
          .error ("Plugin \'" ++ pid ++ "\' does not support get_streams")) ∧
      (c.manifest.capabilities.getAnimeDetails = false →
        ZpeLoader.pluginGetAnimeDetails st pid animeId =
          .error ("Plugin \'" ++ pid ++ "\' does not support get_anime_details")) ∧
      (c.manifest.capabilities.extractStream = false →
        ZpeLoader.pluginExtractStream st pid url =
          .error ("Plugin \'" ++ pid ++ "\' does not support extract_stream"))) ∧
    (∀ (st : ZpeLoader.Registry) (pid q animeId episodeId url : String)
       (page : Nat) (c : ZpePluginContainer),
      lookupKey st pid = some c → c.enabled = true →
      (c.manifest.capabilities.search = true →
        ZpeLoader.pluginSearch st pid q page = c.inst.searchFn q page) ∧
      (c.manifest.capabilities.getPopular = true →
        ZpeLoader.pluginGetPopular st pid page = c.inst.getPopularFn page) ∧
      (c.manifest.capabilities.getLatest = true →
        ZpeLoader.pluginGetLatest st pid page = c.inst.getLatestFn page) ∧
      (c.manifest.capabilities.getEpisodes = true →
        ZpeLoader.pluginGetEpisodes st pid animeId page =
          c.inst.getEpisodesFn animeId page) ∧
      (c.manifest.capabilities.getStreams = true →
        ZpeLoader.pluginGetStreams st pid animeId episodeId =
          c.inst.getStreamsFn animeId episodeId) ∧
      (c.manifest.capabilities.getAnimeDetails = true →
        ZpeLoader.pluginGetAnimeDetails st pid animeId =
          c.inst.getAnimeDetailsFn animeId) ∧
      (c.manifest.capabilities.extractStream = true →
        ZpeLoader.pluginExtractStream st pid url = c.inst.extractStreamFn url)) ∧
    (∀ (st : NativeLoader.Registry) (pid q animeId episodeId : String)
       (page : Nat) (c : NativePluginContainer),
      lookupKey st pid = some c →
      NativeLoader.pluginSearch st pid q page =
        (if (c.plugin.searchFn q page).success then
          .ok (c.plugin.searchFn q page).value
        else .error (c.plugin.searchFn q page).error) ∧
      NativeLoader.pluginGetEpisodes st pid animeId page =
        (if (c.plugin.getEpisodesFn animeId page).success then
          .ok (c.plugin.getEpisodesFn animeId page).value
        else .error (c.plugin.getEpisodesFn animeId page).error) ∧
      NativeLoader.pluginGetStreams st pid animeId episodeId =
        (if (c.plugin.getStreamsFn animeId episodeId).success then
          .ok (c.plugin.getStreamsFn animeId episodeId).value
        else .error (c.plugin.getStreamsFn animeId episodeId).error)) := by
  refine ⟨?_, ?_, ?_, ?_, ?_⟩
  · intro st pid q animeId episodeId url page h
    exact ⟨zpe_dispatch_notFound st pid _ _ _ h,
      zpe_dispatch_notFound st pid _ _ _ h,
      zpe_dispatch_notFound st pid _ _ _ h,
      zpe_dispatch_notFound st pid _ _ _ h,
      zpe_dispatch_notFound st pid _ _ _ h,
      zpe_dispatch_notFound st pid _ _ _ h,
      zpe_dispatch_notFound st pid _ _ _ h⟩
  · intro st pid q animeId episodeId url page c h hd
    exact ⟨zpe_dispatch_disabled st pid _ _ _ c h hd,
      zpe_dispatch_disabled st pid _ _ _ c h hd,
      zpe_dispatch_disabled st pid _ _ _ c h hd,
      zpe_dispatch_disabled st pid _ _ _ c h hd,
      zpe_dispatch_disabled st pid _ _ _ c h hd,
      zpe_dispatch_disabled st pid _ _ _ c h hd,
      zpe_dispatch_disabled st pid _ _ _ c h hd⟩
  · intro st pid q animeId episodeId url page c h he
    exact ⟨fun hc => zpe_dispatch_noCap st pid _ _ _ c h he hc,
      fun hc => zpe_dispatch_noCap st pid _ _ _ c h he hc,
      fun hc => zpe_dispatch_noCap st pid _ _ _ c h he hc,
      fun hc => zpe_dispatch_noCap st pid _ _ _ c h he hc,
      fun hc => zpe_dispatch_noCap st pid _ _ _ c h he hc,
      fun hc => zpe_dispatch_noCap st pid _ _ _ c h he hc,
      fun hc => zpe_dispatch_noCap st pid _ _ _ c h he hc⟩
  · intro st pid q animeId episodeId url page c h he
    exact ⟨fun hc => zpe_dispatch_invoke st pid _ _ _ c h he hc,
      fun hc => zpe_dispatch_invoke st pid _ _ _ c h he hc,
      fun hc => zpe_dispatch_invoke st pid _ _ _ c h he hc,
      fun hc => zpe_dispatch_invoke st pid _ _ _ c h he hc,
      fun hc => zpe_dispatch_invoke st pid _ _ _ c h he hc,
      fun hc => zpe_dispatch_invoke st pid _ _ _ c h he hc,
      fun hc => zpe_dispatch_invoke st pid _ _ _ c h he hc⟩
  · intro st pid q animeId episodeId page c h
    refine ⟨?_, ?_, ?_⟩ <;>
      simp [NativeLoader.pluginSearch, NativeLoader.pluginGetEpisodes,
        NativeLoader.pluginGetStreams, h]

/-- A native plugin object whose declared capability bitmask is `0` (in
particular the `CAP_GET_STREAMS = 1 << 4` bit is clear) but whose stream
method succeeds with a recognizable value. -/
def nativeNoCapPlugin : NativePluginImpl where
  metadata :=
    { id := "native-demo", name := "Demo", version := "1.0.0",
      targetAyotoVersion := "1.0.0" }
  capabilities := 0
  initOutcome := { success := true, value := (), error := "" }
  searchFn := fun _ _ => { success := false, value := {}, error := "unsupported" }
  getEpisodesFn := fun _ _ => { success := false, value := {}, error := "unsupported" }
  getStreamsFn := fun _ _ =>
    { success := true,
      value := { items := [{ url := "http://example/stream" }] },
      error := "" }

/-- The registry record caching `nativeNoCapPlugin` with bitmask `0`. -/
def nativeNoCapContainer : NativePluginContainer where
  plugin := nativeNoCapPlugin
  handleOpen := true
  libraryPath := "/plugins/demo.so"
  initialized := true
  metadata :=
    { id := "native-demo", name := "Demo", version := "1.0.0",
      author := none, description := none, targetAyotoVersion := "1.0.0",
      pluginType := 0, capabilities := 0, libraryPath := "/plugins/demo.so",
      enabled := true, isCompatible := true, loadedAt := 0 }

/-- A native registry holding `nativeNoCapPlugin`, loaded and enabled. -/
def nativeNoCapRegistry : NativeLoader.Registry :=
  [("native-demo", nativeNoCapContainer)]

/-- Counterexample to C1: on the native backend, dispatching `get_streams`
against a plugin whose registry record declares the `getStreams` capability
false (bitmask `0`) does *not* return a capability error — the plugin's
stream method is invoked and its value returned. -/
theorem native_get_streams_ignores_capability :
    nativeNoCapPlugin.capabilities = 0 ∧
    NativeLoader.pluginGetStreams nativeNoCapRegistry "native-demo" "a1" "e1" =
      .ok { items := [{ url := "http://example/stream" }] } ∧
    NativeLoader.pluginGetStreams nativeNoCapRegistry "native-demo" "a1" "e1" ≠
      .error ("Plugin \'native-demo\' does not support get_streams") :=
  ⟨rfl, rfl, fun h => by
    rw [show NativeLoader.pluginGetStreams nativeNoCapRegistry "native-demo" "a1" "e1" =
        .ok { items := [{ url := "http://example/stream" }] } from rfl] at h
    exact Except.noConfusion h⟩

/-- A ZPE instance whose every export succeeds with a default value. -/
def zpeDummyInstance : ZpeInstance where
  initOutcome := .ok ()
  searchFn := fun _ _ => .ok {}
  getPopularFn := fun _ => .ok {}
  getLatestFn := fun _ => .ok {}
  getEpisodesFn := fun _ _ => .ok {}
  getStreamsFn := fun _ _ => .ok {}
  getAnimeDetailsFn := fun _ => .ok {}
  extractStreamFn := fun _ => .ok {}

/-- An enabled ZPE container whose manifest declares `search` but not
`get_streams`. -/
def zpeNoStreamContainer : ZpePluginContainer where
  manifest :=
    { id := "demo", name := "Demo", version := "1.0.0",
      targetAyotoVersion := "1.0.0", capabilities := { search := true } }
  inst := zpeDummyInstance
  filePath := "/plugins/demo.zpe"
  enabled := true
  loadedAt := 0

/-- A ZPE registry holding only `zpeNoStreamContainer`. -/
def zpeNoStreamRegistry : ZpeLoader.Registry :=
  [("demo", zpeNoStreamContainer)]

/-- Witness for C1 (amended): on the ZPE backend, a concrete unknown id is a
not-found error and a concrete `get_streams` dispatch against a
`capabilities.get_streams = false` manifest is the capability error. -/
theorem dispatch_gating_zpe_and_native_witness :
    ZpeLoader.pluginSearch ([] : ZpeLoader.Registry) "ghost" "q" 1 =
      .error "Plugin \'ghost\' not found" ∧
    ZpeLoader.pluginGetStreams zpeNoStreamRegistry "demo" "a1" "e1" =
      .error "Plugin \'demo\' does not support get_streams" :=
  ⟨(dispatch_gating_zpe_and_native.1 [] "ghost" "q" "a" "e" "u" 1 rfl).1,
   ((dispatch_gating_zpe_and_native.2.2.1 zpeNoStreamRegistry "demo" "q" "a1" "e1" "u" 1
      zpeNoStreamContainer rfl rfl).2.2.2.2.1) rfl⟩

/-- A native plugin object whose metadata id is empty. -/
def emptyIdPlugin : NativePluginImpl where
  metadata :=
    { id := "", name := "Broken", version := "1.0.0",
      targetAyotoVersion := "1.0.0" }
  capabilities := 0
  initOutcome := { success := true, value := (), error := "" }
  searchFn := fun _ _ => { success := false, value := {}, error := "unsupported" }
  getEpisodesFn := fun _ _ => { success := false, value := {}, error := "unsupported" }
  getStreamsFn := fun _ _ => { success := false, value := {}, error := "unsupported" }

/-- A library that opens, matches the host ABI and produces `emptyIdPlugin`. -/
def emptyIdLibrary : NativeLibrary where
  opensOk := true
  hasAbiSymbol := true
  abiVersion := PLUGIN_ABI_VERSION
  hasCreateSymbol := true
  factoryReturnsNull := false
  plugin := emptyIdPlugin

/-- C3 at the failing input: loading a library that opens successfully but
whose plugin reports an empty id fails the load and leaves the registry
unchanged, yet `dlclose` is never called on the open handle — the handle is
leaked, contradicting the claim that every post-open failure closes the
handle before returning (the source's `load_plugin` returns from the
empty-id branch, native_loader.rs lines 325-333, without releasing the
handle obtained at line 414). -/
theorem native_empty_id_leaks_handle :
    (NativeLoader.loadPlugin "1.0.0" 0 []
      { path := "/plugins/broken.so", fileExists := true, extensionOk := true,
        lib := emptyIdLibrary, lockFails := false }).result.success = false ∧
    (NativeLoader.loadPlugin "1.0.0" 0 []
      { path := "/plugins/broken.so", fileExists := true, extensionOk := true,
        lib := emptyIdLibrary, lockFails := false }).registry = [] ∧
    (NativeLoader.loadPlugin "1.0.0" 0 []
      { path := "/plugins/broken.so", fileExists := true, extensionOk := true,
        lib := emptyIdLibrary, lockFails := false }).handleOpened = true ∧
    (NativeLoader.loadPlugin "1.0.0" 0 []
      { path := "/plugins/broken.so", fileExists := true, extensionOk := true,
        lib := emptyIdLibrary, lockFails := false }).handleClosed = false :=
  ⟨rfl, rfl, rfl, rfl⟩

/-- C5: the cross-boundary call protocol.  For every guest whose exported
allocator yields `ptr` for the payload length, whose memory accepts the
payload there, and whose entry point — invoked precisely at `(ptr, payload
length)` — returns the packed 64-bit value `r` with a non-zero pointer half
and an in-bounds result range, the host call succeeds with exactly the
`r % 2^32` bytes of guest memory starting at `r / 2^32` (the high and low
32-bit halves of `r`).  The statement quantifies over every guest, so the
write offset can only be the allocator's own answer: the host never picks a
guest address itself. -/
theorem call_json_function_protocol (g : WasmGuest) (name : String)
    (input : List Nat) (ptr r : Nat) (mem1 mem2 : ZpeMemory)
    (hae : g.allocateExists = true)
    (ha : g.allocate input.length = .ok ptr)
    (hw : memWrite g.mem ptr input = .ok mem1)
    (hee : g.entryExists = true)
    (he : g.entry ptr input.length mem1 = .ok (r, mem2))
    (hr : r < 2 ^ 64)
    (hptr : r / 2 ^ 32 ≠ 0)
    (hread : r / 2 ^ 32 + r % 2 ^ 32 ≤ mem2.size) :
    callJsonFunction g name input =
      .ok ((List.range (r % 2 ^ 32)).map fun i => mem2.byteAt (r / 2 ^ 32 + i)) ∧
    ((List.range (r % 2 ^ 32)).map fun i => mem2.byteAt (r / 2 ^ 32 + i)).length =
      r % 2 ^ 32 := by
  have hmod : r % 2 ^ 64 = r := Nat.mod_eq_of_lt hr
  constructor
  · simp only [callJsonFunction, hae, ha, hw, hee, he, hmod, memRead,
      Bool.not_true, Bool.false_eq_true, if_false]
    rw [if_neg hptr, if_pos hread]
  · simp

/-- Witness guest for C5 and C10: 64 bytes of memory all holding 7, an
allocator answering offset 8, an entry point returning the fixed packed
value and leaving memory unchanged. -/
def witnessGuest (packed : Nat) : WasmGuest where
  allocateExists := true
  allocate := fun _ => .ok 8
  entryExists := true
  entry := fun _ _ mem => .ok (packed, mem)
  mem := { size := 64, byteAt := fun _ => 7 }

/-- The witness guest's memory after the 3-byte payload is written at 8. -/
def writtenWitnessMemory : ZpeMemory :=
  { size := 64,
    byteAt := fun i => if 8 ≤ i ∧ i < 11 then [1, 2, 3].getD (i - 8) 0 else 7 }

/-- Witness for C5: the packed value `16 * 2^32 + 4` makes the host read
exactly the 4 bytes at offset 16 (all 7). -/
theorem call_json_function_protocol_witness :
    callJsonFunction (witnessGuest (16 * 2 ^ 32 + 4)) "zpe_search" [1, 2, 3] =
      .ok [7, 7, 7, 7] := by
  have h := (call_json_function_protocol (witnessGuest (16 * 2 ^ 32 + 4)) "zpe_search"
      [1, 2, 3] 8 (16 * 2 ^ 32 + 4) writtenWitnessMemory writtenWitnessMemory
      rfl rfl rfl rfl rfl (by decide) (by decide) (by decide)).1
  rw [h]
  rfl

/-- C10: when the guest entry point's packed return value has a zero
pointer half (`r % 2^64 < 2^32`), the host returns the error
`Function returned null`; the conclusion holds for every post-call memory
`mem2`, so the call fails cleanly without reading guest memory at offset 0. -/
theorem null_result_short_circuit (g : WasmGuest) (name : String)
    (input : List Nat) (ptr r : Nat) (mem1 mem2 : ZpeMemory)
    (hae : g.allocateExists = true)
    (ha : g.allocate input.length = .ok ptr)
    (hw : memWrite g.mem ptr input = .ok mem1)
    (hee : g.entryExists = true)
    (he : g.entry ptr input.length mem1 = .ok (r, mem2))
    (hr : r % 2 ^ 64 < 2 ^ 32) :
    callJsonFunction g name input = .error "Function returned null" := by
  have hdiv : r % 2 ^ 64 / 2 ^ 32 = 0 := Nat.div_eq_of_lt hr
  simp only [callJsonFunction, hae, ha, hw, hee, he,
    Bool.not_true, Bool.false_eq_true, if_false]
  rw [if_pos hdiv]

/-- Witness for C10: the packed value `5` (pointer half zero, length half 5)
yields the null error. -/
theorem null_result_short_circuit_witness :
    callJsonFunction (witnessGuest 5) "zpe_search" [1, 2, 3] =
      .error "Function returned null" :=
  null_result_short_circuit (witnessGuest 5) "zpe_search" [1, 2, 3] 8 5
    writtenWitnessMemory writtenWitnessMemory rfl rfl rfl rfl rfl (by decide)

/-- C4: a declared target host version whose major differs from the host's
major is a soft failure on the JSON and WASM paths — the load still succeeds
(`success = true`) with a non-empty warnings list — while a native library
whose exported ABI accessor returns a value different from
`PLUGIN_ABI_VERSION` fails to load (`success = false`, registry unchanged). -/
theorem version_major_mismatch_handling :
    (∀ (hostVersion : String) (platform : TargetPlatform) (now : Int)
       (st : JsonLoader.Registry) (m : PluginManifest) (source : String)
       (hv tv : SemVer),
      m.validate.isValid = true → m.supportsPlatform platform = true →
      SemVer.parse hostVersion = .ok hv →
      SemVer.parse m.targetAyotoVersion = .ok tv →
      hv.major ≠ tv.major →
      (JsonLoader.loadFromJson hostVersion platform now st m source false).1.success
        = true ∧
      (JsonLoader.loadFromJson hostVersion platform now st m source false).1.warnings
        ≠ []) ∧
    (∀ (hostVersion : String) (now : Int) (st : ZpeLoader.Registry)
       (inp : ZpeLoader.ZpeLoadInput) (archive : ZpeLoader.ZpeArchive)
       (manifest : ZpeManifest) (inst : ZpeInstance)
       (hM hm hp tM tm tp : Nat),
      inp.fileExists = true → inp.extensionOk = true →
      inp.archiveResult = .ok archive →
      archive.manifestResult = .ok manifest →
      archive.embeddedIcon = none →
      manifest.validate.valid = true →
      archive.wasmResult = .ok () →
      archive.instanceResult = .ok inst →
      inp.lockFails = false →
      parseVersionTriple hostVersion = some (hM, hm, hp) →
      parseVersionTriple manifest.targetAyotoVersion = some (tM, tm, tp) →
      hM ≠ tM →
      (ZpeLoader.loadPlugin hostVersion now st inp).1.success = true ∧
      (ZpeLoader.loadPlugin hostVersion now st inp).1.warnings ≠ []) ∧
    (∀ (hostVersion : String) (now : Int) (st : NativeLoader.Registry)
       (inp : NativeLoader.NativeLoadInput),
      inp.fileExists = true → inp.extensionOk = true →
      inp.lib.opensOk = true → inp.lib.hasAbiSymbol = true →
      inp.lib.abiVersion ≠ PLUGIN_ABI_VERSION →
      (NativeLoader.loadPlugin hostVersion now st inp).result.success = false ∧
      (NativeLoader.loadPlugin hostVersion now st inp).registry = st) := by
  refine ⟨?_, ?_, ?_⟩
  · intro hostVersion platform now st m source hv tv hvalid hplat hparseH hparseT hmaj
    have hcw : hv.isCompatibleWith tv = false := by
      simp [SemVer.isCompatibleWith, hmaj]
    have hcompat : m.isCompatibleWithAyoto hostVersion = .ok false := by
      unfold PluginManifest.isCompatibleWithAyoto
      rw [hparseH, hparseT]
      simp [hcw]
    simp [JsonLoader.loadFromJson, hvalid, JsonLoader.checkCompatibility,
      hcompat, hplat]
  · intro hostVersion now st inp archive manifest inst hM hm hp tM tm tp
      h1 h2 h3 h4 h5 h6 h7 h8 h10 hph hpt hmaj
    have hcompat :
        checkVersionCompatibility hostVersion manifest.targetAyotoVersion = false := by
      simp [checkVersionCompatibility, hph, hpt, hmaj]
    simp [ZpeLoader.loadPlugin, h1, h2, h3, h4, h5, h6, h7, h8, h10, hcompat]
  · intro hostVersion now st inp h1 h2 h3 h4 h5
    simp [NativeLoader.loadPlugin, loadLibraryUnix, h1, h2, h3, h4, h5]

/-- A valid JSON manifest targeting host major 2. -/
def majorMismatchManifest : PluginManifest :=
  { id := "future", name := "Future", version := "1.0.0",
    targetAyotoVersion := "2.0.0", capabilities := { search := true } }

/-- A valid ZPE manifest targeting host major 2. -/
def zpeMismatchManifest : ZpeManifest :=
  { id := "future-zpe", name := "Future", version := "1.0.0",
    targetAyotoVersion := "2.0.0" }

/-- A well-formed ZPE archive around `zpeMismatchManifest`. -/
def zpeMismatchArchive : ZpeLoader.ZpeArchive :=
  { manifestResult := .ok zpeMismatchManifest, embeddedIcon := none,
    wasmResult := .ok (), instanceResult := .ok zpeDummyInstance }

/-- A ZPE load of `zpeMismatchArchive` with every file step succeeding. -/
def zpeMismatchInput : ZpeLoader.ZpeLoadInput :=
  { path := "/plugins/future.zpe", fileExists := true, extensionOk := true,
    archiveResult := .ok zpeMismatchArchive, lockFails := false }

/-- A native library whose ABI accessor returns 99 where the host expects 1. -/
def abi99Library : NativeLibrary :=
  { opensOk := true, hasAbiSymbol := true, abiVersion := 99,
    hasCreateSymbol := true, factoryReturnsNull := false, plugin := emptyIdPlugin }

/-- A native load of `abi99Library` with the file steps succeeding. -/
def abi99Input : NativeLoader.NativeLoadInput :=
  { path := "/plugins/abi99.so", fileExists := true, extensionOk := true,
    lib := abi99Library, lockFails := false }

/-- Witness for C4 at host version `1.0.0`: target `2.0.0` on the JSON and
ZPE paths loads with warnings; ABI value 99 on the native path fails. -/
theorem version_major_mismatch_handling_witness :
    (JsonLoader.loadFromJson "1.0.0" .linux 0 [] majorMismatchManifest
      "m.ayoto" false).1.success = true ∧
    (JsonLoader.loadFromJson "1.0.0" .linux 0 [] majorMismatchManifest
      "m.ayoto" false).1.warnings ≠ [] ∧
    (ZpeLoader.loadPlugin "1.0.0" 0 [] zpeMismatchInput).1.success = true ∧
    (ZpeLoader.loadPlugin "1.0.0" 0 [] zpeMismatchInput).1.warnings ≠ [] ∧
    (NativeLoader.loadPlugin "1.0.0" 0 [] abi99Input).result.success = false ∧
    (NativeLoader.loadPlugin "1.0.0" 0 [] abi99Input).registry = [] :=
  ⟨(version_major_mismatch_handling.1 "1.0.0" .linux 0 [] majorMismatchManifest
      "m.ayoto" ⟨1, 0, 0, none⟩ ⟨2, 0, 0, none⟩ rfl rfl rfl rfl (by decide)).1,
   (version_major_mismatch_handling.1 "1.0.0" .linux 0 [] majorMismatchManifest
      "m.ayoto" ⟨1, 0, 0, none⟩ ⟨2, 0, 0, none⟩ rfl rfl rfl rfl (by decide)).2,
   (version_major_mismatch_handling.2.1 "1.0.0" 0 [] zpeMismatchInput
      zpeMismatchArchive zpeMismatchManifest zpeDummyInstance 1 0 0 2 0 0
      rfl rfl rfl rfl rfl rfl rfl rfl rfl rfl rfl (by decide)).1,
   (version_major_mismatch_handling.2.1 "1.0.0" 0 [] zpeMismatchInput
      zpeMismatchArchive zpeMismatchManifest zpeDummyInstance 1 0 0 2 0 0
      rfl rfl rfl rfl rfl rfl rfl rfl rfl rfl rfl (by decide)).2,
   (version_major_mismatch_handling.2.2 "1.0.0" 0 [] abi99Input
      rfl rfl rfl rfl (by decide)).1,
   (version_major_mismatch_handling.2.2 "1.0.0" 0 [] abi99Input
      rfl rfl rfl rfl (by decide)).2⟩

/-- C6: on a native load whose library opens, passes the ABI check, yields a
non-null factory result and a non-empty id, a failing `initialize` call only
adds a `Plugin initialization warning: …` entry — the load result still has
`success = true` and the plugin stays in the registry, retrievable by id. -/
theorem native_init_failure_is_warning
    (hostVersion : String) (now : Int) (st : NativeLoader.Registry)
    (inp : NativeLoader.NativeLoadInput)
    (h1 : inp.fileExists = true) (h2 : inp.extensionOk = true)
    (h3 : inp.lib.opensOk = true) (h4 : inp.lib.hasAbiSymbol = true)
    (h5 : inp.lib.abiVersion = PLUGIN_ABI_VERSION)
    (h6 : inp.lib.hasCreateSymbol = true)
    (h7 : inp.lib.factoryReturnsNull = false)
    (h8 : inp.lib.plugin.metadata.id.isEmpty = false)
    (h9 : inp.lockFails = false)
    (h10 : inp.lib.plugin.initOutcome.success = false) :
    (NativeLoader.loadPlugin hostVersion now st inp).result.success = true ∧
    ("Plugin initialization warning: " ++ inp.lib.plugin.initOutcome.error) ∈
      (NativeLoader.loadPlugin hostVersion now st inp).result.warnings ∧
    ((lookupKey (NativeLoader.loadPlugin hostVersion now st inp).registry
       inp.lib.plugin.metadata.id).isSome = true) := by
  simp [NativeLoader.loadPlugin, loadLibraryUnix, NativeLoader.initializePlugin,
    h1, h2, h3, h4, h5, h6, h7, h8, h9, h10, lookupKey_insertKey_self]

/-- A native plugin whose `initialize` fails with `no config dir`. -/
def initFailPlugin : NativePluginImpl where
  metadata :=
    { id := "flaky", name := "Flaky", version := "1.0.0",
      targetAyotoVersion := "1.0.0" }
  capabilities := 1
  initOutcome := { success := false, value := (), error := "no config dir" }
  searchFn := fun _ _ => { success := false, value := {}, error := "unsupported" }
  getEpisodesFn := fun _ _ => { success := false, value := {}, error := "unsupported" }
  getStreamsFn := fun _ _ => { success := false, value := {}, error := "unsupported" }

/-- A healthy library carrying `initFailPlugin`. -/
def initFailLibrary : NativeLibrary :=
  { opensOk := true, hasAbiSymbol := true, abiVersion := PLUGIN_ABI_VERSION,
    hasCreateSymbol := true, factoryReturnsNull := false, plugin := initFailPlugin }

/-- A native load of `initFailLibrary` with the file steps succeeding. -/
def initFailInput : NativeLoader.NativeLoadInput :=
  { path := "/plugins/flaky.so", fileExists := true, extensionOk := true,
    lib := initFailLibrary, lockFails := false }

/-- Witness for C6: loading `initFailPlugin` succeeds with the warning, and
`flaky` is afterwards in the registry. -/
theorem native_init_failure_is_warning_witness :
    (NativeLoader.loadPlugin "1.0.0" 0 [] initFailInput).result.success = true ∧
    "Plugin initialization warning: no config dir" ∈
      (NativeLoader.loadPlugin "1.0.0" 0 [] initFailInput).result.warnings ∧
    (lookupKey (NativeLoader.loadPlugin "1.0.0" 0 [] initFailInput).registry
      "flaky").isSome = true :=
  ⟨(native_init_failure_is_warning "1.0.0" 0 [] initFailInput
      rfl rfl rfl rfl rfl rfl rfl rfl rfl rfl).1,
   (native_init_failure_is_warning "1.0.0" 0 [] initFailInput
      rfl rfl rfl rfl rfl rfl rfl rfl rfl rfl).2.1,
   (native_init_failure_is_warning "1.0.0" 0 [] initFailInput
      rfl rfl rfl rfl rfl rfl rfl rfl rfl rfl).2.2⟩

/-- C7 (amended): loading a second valid manifest with the id of an already
loaded one succeeds on every backend and leaves exactly one registry entry
for that id, holding the second manifest's data.  The ZPE backend also emits
the `already loaded, replacing` warning; the JSON backend performs no
duplicate detection at all — its load result (including its warnings) is
identical for every starting registry, so it replaces silently. -/
theorem duplicate_id_replacement :
    (∀ (hostVersion : String) (now1 now2 : Int) (st : ZpeLoader.Registry)
       (inp1 inp2 : ZpeLoader.ZpeLoadInput) (a1 a2 : ZpeLoader.ZpeArchive)
       (m1 m2 : ZpeManifest) (i1 i2 : ZpeInstance),
      inp1.fileExists = true → inp1.extensionOk = true →
      inp1.archiveResult = .ok a1 → a1.manifestResult = .ok m1 →
      a1.embeddedIcon = none → m1.validate.valid = true →
      a1.wasmResult = .ok () → a1.instanceResult = .ok i1 →
      inp1.lockFails = false →
      inp2.fileExists = true → inp2.extensionOk = true →
      inp2.archiveResult = .ok a2 → a2.manifestResult = .ok m2 →
      a2.embeddedIcon = none → m2.validate.valid = true →
      a2.wasmResult = .ok () → a2.instanceResult = .ok i2 →
      inp2.lockFails = false →
      m2.id = m1.id →
      (ZpeLoader.loadPlugin hostVersion now2
        (ZpeLoader.loadPlugin hostVersion now1 st inp1).2 inp2).1.success = true ∧
      ("Plugin \'" ++ m2.id ++ "\' already loaded, replacing") ∈
        (ZpeLoader.loadPlugin hostVersion now2
          (ZpeLoader.loadPlugin hostVersion now1 st inp1).2 inp2).1.warnings ∧
      countKey (ZpeLoader.loadPlugin hostVersion now2
        (ZpeLoader.loadPlugin hostVersion now1 st inp1).2 inp2).2 m2.id = 1 ∧
      (∃ c, lookupKey (ZpeLoader.loadPlugin hostVersion now2
          (ZpeLoader.loadPlugin hostVersion now1 st inp1).2 inp2).2 m2.id = some c ∧
        c.manifest = m2)) ∧
    (∀ (hostVersion : String) (platform : TargetPlatform) (now : Int)
       (st1 st2 : JsonLoader.Registry) (m : PluginManifest) (source : String),
      (JsonLoader.loadFromJson hostVersion platform now st1 m source false).1 =
      (JsonLoader.loadFromJson hostVersion platform now st2 m source false).1) ∧
    (∀ (hostVersion : String) (platform : TargetPlatform) (now1 now2 : Int)
       (st : JsonLoader.Registry) (m1 m2 : PluginManifest) (src1 src2 : String),
      m1.validate.isValid = true → m1.supportsPlatform platform = true →
      m2.validate.isValid = true → m2.supportsPlatform platform = true →
      m2.id = m1.id →
      (JsonLoader.loadFromJson hostVersion platform now2
        (JsonLoader.loadFromJson hostVersion platform now1 st m1 src1 false).2
        m2 src2 false).1.success = true ∧
      countKey (JsonLoader.loadFromJson hostVersion platform now2
        (JsonLoader.loadFromJson hostVersion platform now1 st m1 src1 false).2
        m2 src2 false).2 m2.id = 1 ∧
      (∃ p, lookupKey (JsonLoader.loadFromJson hostVersion platform now2
          (JsonLoader.loadFromJson hostVersion platform now1 st m1 src1 false).2
          m2 src2 false).2 m2.id = some p ∧ p.manifest = m2)) := by
  refine ⟨?_, ?_, ?_⟩
  · intro hostVersion now1 now2 st inp1 inp2 a1 a2 m1 m2 i1 i2
      b1 b2 b3 b4 b5 b6 b7 b8 b9 c1 c2 c3 c4 c5 c6 c7 c8 c9 hid
    have hfirst : (ZpeLoader.loadPlugin hostVersion now1 st inp1).2 =
        insertKey st m1.id
          { manifest := m1, inst := i1, filePath := inp1.path,
            enabled := true, loadedAt := now1 } := by
      simp [ZpeLoader.loadPlugin, b1, b2, b3, b4, b5, b6, b7, b8, b9]
    rw [hfirst]
    have hdup2 : (lookupKey
        (insertKey st m1.id
          { manifest := m1, inst := i1, filePath := inp1.path,
            enabled := true, loadedAt := now1 })
        m2.id).isSome = true := by
      rw [hid, lookupKey_insertKey_self]
      rfl
    refine ⟨?_, ?_, ?_, ?_⟩
    · simp [ZpeLoader.loadPlugin, c1, c2, c3, c4, c5, c6, c7, c8, c9, hdup2]
    · simp [ZpeLoader.loadPlugin, c1, c2, c3, c4, c5, c6, c7, c8, c9, hdup2]
    · simp [ZpeLoader.loadPlugin, c1, c2, c3, c4, c5, c6, c7, c8, c9, hdup2,
        countKey_insertKey_self]
    · refine ⟨{ manifest := m2, inst := i2, filePath := inp2.path,
                enabled := true, loadedAt := now2 }, ?_, rfl⟩
      simp [ZpeLoader.loadPlugin, c1, c2, c3, c4, c5, c6, c7, c8, c9, hdup2,
        lookupKey_insertKey_self]
  · intro hostVersion platform now st1 st2 m source
    by_cases hv : (!m.validate.isValid) = true <;>
      by_cases hp :
        (!(JsonLoader.checkCompatibility hostVersion platform m).platformCompatible)
          = true <;>
      simp [JsonLoader.loadFromJson, hv, hp]
  · intro hostVersion platform now1 now2 st m1 m2 src1 src2 v1 p1 v2 p2 hid
    refine ⟨?_, ?_, ?_⟩
    · simp [JsonLoader.loadFromJson, JsonLoader.checkCompatibility, v2, p2]
    · simp [JsonLoader.loadFromJson, JsonLoader.checkCompatibility, v2, p2,
        countKey_insertKey_self]
    · refine ⟨{ manifest := m2, enabled := true, source := src2,
                loadedAt := now2, lastError := none,
                compatibility :=
                  JsonLoader.checkCompatibility hostVersion platform m2 },
        ?_, rfl⟩
      simp [JsonLoader.loadFromJson, JsonLoader.checkCompatibility, v2, p2,
        lookupKey_insertKey_self]

/-- First JSON manifest of the duplicate pair (id `dup`). -/
def jsonDupManifestA : PluginManifest :=
  { id := "dup", name := "First", version := "1.0.0",
    targetAyotoVersion := "1.0.0", capabilities := { search := true } }

/-- Second JSON manifest with the same id and a different name. -/
def jsonDupManifestB : PluginManifest :=
  { jsonDupManifestA with name := "Second" }

/-- Counterexample to C7: on the JSON backend, loading `jsonDupManifestB`
while `dup` is already in the registry succeeds with an *empty* warnings
list — no replacing-style warning is emitted. -/
theorem json_duplicate_load_has_no_warning :
    (lookupKey (JsonLoader.loadFromJson "1.0.0" .linux 0 [] jsonDupManifestA
      "a.ayoto" false).2 "dup").isSome = true ∧
    (JsonLoader.loadFromJson "1.0.0" .linux 1
      (JsonLoader.loadFromJson "1.0.0" .linux 0 [] jsonDupManifestA
        "a.ayoto" false).2
      jsonDupManifestB "b.ayoto" false).1.success = true ∧
    (JsonLoader.loadFromJson "1.0.0" .linux 1
      (JsonLoader.loadFromJson "1.0.0" .linux 0 [] jsonDupManifestA
        "a.ayoto" false).2
      jsonDupManifestB "b.ayoto" false).1.warnings = [] :=
  ⟨rfl, rfl, rfl⟩

/-- First ZPE manifest of the duplicate pair (id `dup-zpe`). -/
def zpeDupManifestA : ZpeManifest :=
  { id := "dup-zpe", name := "First", version := "1.0.0",
    targetAyotoVersion := "1.0.0" }

/-- Second ZPE manifest with the same id and different name and version. -/
def zpeDupManifestB : ZpeManifest :=
  { id := "dup-zpe", name := "Second", version := "1.1.0",
    targetAyotoVersion := "1.0.0" }

/-- Archive around `zpeDupManifestA`. -/
def zpeDupArchiveA : ZpeLoader.ZpeArchive :=
  { manifestResult := .ok zpeDupManifestA, embeddedIcon := none,
    wasmResult := .ok (), instanceResult := .ok zpeDummyInstance }

/-- Archive around `zpeDupManifestB`. -/
def zpeDupArchiveB : ZpeLoader.ZpeArchive :=
  { manifestResult := .ok zpeDupManifestB, embeddedIcon := none,
    wasmResult := .ok (), instanceResult := .ok zpeDummyInstance }

/-- Load input for the first duplicate. -/
def zpeDupInputA : ZpeLoader.ZpeLoadInput :=
  { path := "/plugins/a.zpe", fileExists := true, extensionOk := true,
    archiveResult := .ok zpeDupArchiveA, lockFails := false }

/-- Load input for the second duplicate. -/
def zpeDupInputB : ZpeLoader.ZpeLoadInput :=
  { path := "/plugins/b.zpe", fileExists := true, extensionOk := true,
    archiveResult := .ok zpeDupArchiveB, lockFails := false }

/-- Witness for C7 (amended) at the concrete ZPE duplicate pair: the second
load succeeds, carries the replacing warning, and exactly one `dup-zpe`
entry remains. -/
theorem duplicate_id_replacement_witness :
    (ZpeLoader.loadPlugin "1.0.0" 1
      (ZpeLoader.loadPlugin "1.0.0" 0 [] zpeDupInputA).2
      zpeDupInputB).1.success = true ∧
    "Plugin \'dup-zpe\' already loaded, replacing" ∈
      (ZpeLoader.loadPlugin "1.0.0" 1
        (ZpeLoader.loadPlugin "1.0.0" 0 [] zpeDupInputA).2
        zpeDupInputB).1.warnings ∧
    countKey (ZpeLoader.loadPlugin "1.0.0" 1
      (ZpeLoader.loadPlugin "1.0.0" 0 [] zpeDupInputA).2
      zpeDupInputB).2 "dup-zpe" = 1 :=
  ⟨(duplicate_id_replacement.1 "1.0.0" 0 1 [] zpeDupInputA zpeDupInputB
      zpeDupArchiveA zpeDupArchiveB zpeDupManifestA zpeDupManifestB
      zpeDummyInstance zpeDummyInstance
      rfl rfl rfl rfl rfl rfl rfl rfl rfl rfl rfl rfl rfl rfl rfl rfl rfl rfl
      rfl).1,
   (duplicate_id_replacement.1 "1.0.0" 0 1 [] zpeDupInputA zpeDupInputB
      zpeDupArchiveA zpeDupArchiveB zpeDupManifestA zpeDupManifestB
      zpeDummyInstance zpeDummyInstance
      rfl rfl rfl rfl rfl rfl rfl rfl rfl rfl rfl rfl rfl rfl rfl rfl rfl rfl
      rfl).2.1,
   (duplicate_id_replacement.1 "1.0.0" 0 1 [] zpeDupInputA zpeDupInputB
      zpeDupArchiveA zpeDupArchiveB zpeDupManifestA zpeDupManifestB
      zpeDummyInstance zpeDummyInstance
      rfl rfl rfl rfl rfl rfl rfl rfl rfl rfl rfl rfl rfl rfl rfl rfl rfl rfl
      rfl).2.2.1⟩
